import Mathlib

/-!
Shallow embedding of the retrieval-scoring and benchmark-execution engine of
`openclaw-memory-bench` (source files `metrics.py`, `runner.py`,
`dataset.py`, `validation.py`), together with theorems settling the claims
of the specification against it.

Modelling conventions:

* Python float arithmetic is modelled as exact arithmetic: metric values
  obtained by dividing counts are `ℚ`; values involving `math.log2` are `ℝ`.
* A Python function that can raise returns `Except PyExc α`, where `PyExc`
  models the exception value.
* Wall-clock readings (`time.perf_counter`, `datetime.now`) and `print`
  logging are not modelled; neither influences any control flow or any
  value a claim talks about.
* A memory-provider adapter is modelled as a record of state-passing
  functions over an arbitrary state type `σ` (Python adapters are stateful
  objects); every provider call the runner makes is additionally recorded
  in an `AdapterEvent` trace so that claims about which calls happen can be
  stated.
-/

namespace OpenclawMemoryBench

/-- Python exception values visible to the benchmark core.  The constructors
mirror the exception classes inspected by `runner._classify_failure`;
`schemaValidationError` models `validation.SchemaValidationError`, which is
a subclass of `ValueError` (as is `json.JSONDecodeError`). `otherError`
covers every other exception class, carrying the class name. -/
inductive PyExc where
  | timeoutExpired (msg : String)
  | fileNotFoundError (msg : String)
  | jsonDecodeError (msg : String)
  | valueError (msg : String)
  | schemaValidationError (msg : String)
  | runtimeError (msg : String)
  | otherError (ty msg : String)
  deriving DecidableEq

/-- Value of `type(exc).__name__` for a `PyExc`. -/
def PyExc.name : PyExc → String
  | .timeoutExpired _ => "TimeoutExpired"
  | .fileNotFoundError _ => "FileNotFoundError"
  | .jsonDecodeError _ => "JSONDecodeError"
  | .valueError _ => "ValueError"
  | .schemaValidationError _ => "SchemaValidationError"
  | .runtimeError _ => "RuntimeError"
  | .otherError ty _ => ty

/-- Value of `str(exc)` for a `PyExc`. -/
def PyExc.msg : PyExc → String
  | .timeoutExpired m => m
  | .fileNotFoundError m => m
  | .jsonDecodeError m => m
  | .valueError m => m
  | .schemaValidationError m => m
  | .runtimeError m => m
  | .otherError _ m => m

/-! ## `metrics.py` -/

/-- Embedding of `metrics.RetrievalMetrics`.  The four count-ratio metrics are exact
rationals; `ndcg_at_k` involves `math.log2` and lives in `ℝ`. -/
structure RetrievalMetrics where
  hit_at_k : ℚ
  precision_at_k : ℚ
  recall_at_k : ℚ
  mrr : ℚ
  ndcg_at_k : ℝ

/-- The loop body of `metrics._dedupe_keep_order`: `seen` is the set of
already-emitted ids (a list here; only membership is used). -/
def dedupeGo (seen : List String) : List String → List String
  | [] => []
  | x :: rest => if x ∈ seen then dedupeGo seen rest else x :: dedupeGo (x :: seen) rest

/-- Embedding of `metrics._dedupe_keep_order`: drop duplicates, keeping the first
occurrence of each id in order. -/
def dedupe_keep_order (items : List String) : List String :=
  dedupeGo [] items

/-- The `for i, sid in enumerate(ranked)` loop of `metrics.score_retrieval`
that computes the MRR term: `1/(i+1)` at the first position whose id is
relevant, `0.0` if none is. -/
def reciprocalRank (relevant : Finset String) : ℕ → List String → ℚ
  | _, [] => 0
  | i, sid :: rest =>
      if sid ∈ relevant then 1 / ((i : ℚ) + 1) else reciprocalRank relevant (i + 1) rest

/-- The discount weight `1.0 / math.log2(i + 2)` for 0-indexed rank `i`. -/
noncomputable def logWeight (i : ℕ) : ℝ :=
  1 / Real.logb 2 ((i : ℝ) + 2)

/-- The `for i, rel in enumerate(binary)` loop of `metrics.score_retrieval`
accumulating `dcg`: add `logWeight i` at each position whose binary
relevance is non-zero (Python truthiness of the int entry). -/
noncomputable def dcgAux : ℕ → List ℕ → ℝ
  | _, [] => 0
  | i, r :: rest => (if r ≠ 0 then logWeight i else 0) + dcgAux (i + 1) rest

/-- Embedding of `metrics.score_retrieval`.  Raises `ValueError` for `k <= 0`; returns the
all-zero metrics when `relevant_ids` collapses to the empty set; otherwise
computes hit@k, precision@k, recall@k, MRR and NDCG@k over the deduplicated,
truncated ranked list. -/
noncomputable def score_retrieval (retrieved_ids relevant_ids : List String) (k : ℤ) :
    Except PyExc RetrievalMetrics :=
  if k ≤ 0 then .error (.valueError "k must be > 0") else
  let ranked := (dedupe_keep_order retrieved_ids).take k.toNat
  let relevant := relevant_ids.toFinset
  if relevant = ∅ then
    .ok ⟨0, 0, 0, 0, 0⟩
  else
    let binary := ranked.map fun x => if x ∈ relevant then (1 : ℕ) else 0
    let rel_count := binary.sum
    let hit : ℚ := if 0 < rel_count then 1 else 0
    let precision : ℚ := (rel_count : ℚ) / (k : ℚ)
    let recallAtK : ℚ := (rel_count : ℚ) / (relevant.card : ℚ)
    let reciprocal_rank := reciprocalRank relevant 0 ranked
    let dcg := dcgAux 0 binary
    let ideal_hits := min relevant.card k.toNat
    let idcg := ∑ i ∈ Finset.range ideal_hits, logWeight i
    let ndcg : ℝ := if 0 < idcg then dcg / idcg else 0
    .ok ⟨hit, precision, recallAtK, reciprocal_rank, ndcg⟩

/-- The metrics carried by a non-raising `score_retrieval` result (all-zero
placeholder if it raised); used to state claims about individual fields. -/
noncomputable def metricsOf (x : Except PyExc RetrievalMetrics) : RetrievalMetrics :=
  x.toOption.getD ⟨0, 0, 0, 0, 0⟩

/-! ## Data model (`protocol.py`, `dataset.py`) -/

/-- Python/JSON values, as consumed by the dataset loader and validator. -/
inductive JVal where
  | null
  | bool (b : Bool)
  | int (n : ℤ)
  | str (s : String)
  | list (xs : List JVal)
  | dict (kvs : List (String × JVal))

/-- Embedding of `protocol.SessionMessage`; `ts` is stored as the raw JSON value the
loader read (`None` → `JVal.null`): nothing validates or reads it. -/
structure SessionMessage where
  role : String
  content : String
  ts : JVal

/-- Embedding of `protocol.Session`; `metadata` is an open string-keyed map of JSON
values (the core never reads it). -/
structure Session where
  session_id : String
  messages : List SessionMessage
  metadata : List (String × JVal)

/-- Embedding of `protocol.SearchHit`.  Metadata values are kept as strings: the runner
only reads `session_id` and `path` and immediately converts them with
`str`, so string-valued metadata is the behaviourally relevant case. -/
structure SearchHit where
  id : String
  content : String
  score : ℚ
  metadata : List (String × String)

/-- Embedding of `dataset.RetrievalQuestion`. -/
structure RetrievalQuestion where
  question_id : String
  question : String
  ground_truth : String
  question_type : String
  sessions : List Session
  relevant_session_ids : List String

/-- Embedding of `dataset.RetrievalDataset`. -/
structure RetrievalDataset where
  name : String
  questions : List RetrievalQuestion

/-- Model of `dict.get(key, default)` over a string-valued association list. -/
def dictGetD (m : List (String × String)) (key dflt : String) : String :=
  match m.find? fun p => p.1 = key with
  | some p => p.2
  | none => dflt

/-- Model of `dict.get(key)` over a string-valued association list (None if absent). -/
def dictGetOpt (m : List (String × String)) (key : String) : Option String :=
  (m.find? fun p => p.1 = key).map fun p => p.2

/-- Python's `in` on strings: substring containment. -/
def strContains (hay needle : String) : Bool :=
  decide (needle.data <:+: hay.data)

/-! ## `runner.py`: failure classification and aggregation -/

/-- The classified-failure dict built by `runner._classify_failure`
(without the `question_id` merged in later by the loop). -/
structure FailureInfo where
  phase : String
  error_code : String
  error_category : String
  retryable : Bool
  exception_type : String
  error : String
  deriving DecidableEq

/-- A failure record as appended by the runner:
`{"question_id": q.question_id, **_classify_failure(e, phase=phase)}`. -/
structure Failure where
  question_id : String
  info : FailureInfo
  deriving DecidableEq

/-- Embedding of `runner._classify_failure`: map an exception to the stable failure
taxonomy.  The `isinstance` arms are mirrored in source order; the
`JSONDecodeError` arm fires before the `ValueError` arm (it is a subclass),
and `SchemaValidationError` (also a `ValueError` subclass) is caught by the
`ValueError` arm.  A `RuntimeError` is `ADAPTER_COMMAND_FAILED` only when
its message contains `"command failed:"`. -/
def _classify_failure (exc : PyExc) (phase : String) : FailureInfo :=
  let msg := exc.msg
  match exc with
  | .timeoutExpired _ => ⟨phase, "TIMEOUT", "timeout", true, exc.name, msg⟩
  | .fileNotFoundError _ => ⟨phase, "COMMAND_NOT_FOUND", "environment", false, exc.name, msg⟩
  | .jsonDecodeError _ => ⟨phase, "PARSE_ERROR", "parse", false, exc.name, msg⟩
  | .valueError _ => ⟨phase, "DATA_VALIDATION_ERROR", "validation", false, exc.name, msg⟩
  | .schemaValidationError _ => ⟨phase, "DATA_VALIDATION_ERROR", "validation", false, exc.name, msg⟩
  | .runtimeError _ =>
      if strContains msg "command failed:" then
        ⟨phase, "ADAPTER_COMMAND_FAILED", "adapter-runtime", true, exc.name, msg⟩
      else
        ⟨phase, "UNEXPECTED_ERROR", "unknown", false, exc.name, msg⟩
  | .otherError ty _ => ⟨phase, "UNEXPECTED_ERROR", "unknown", false, ty, msg⟩

/-- The three counters returned by `runner._failure_breakdown`
(insertion-ordered association lists, like `dict(Counter)`). -/
structure FailureBreakdown where
  by_code : List (String × ℕ)
  by_category : List (String × ℕ)
  by_phase : List (String × ℕ)
  deriving DecidableEq

/-- Model of `Counter.update([key])`: increment the key's count, inserting it at the
end on first occurrence (Python dicts preserve insertion order). -/
def bump (m : List (String × ℕ)) (key : String) : List (String × ℕ) :=
  if m.any fun p => p.1 = key then
    m.map fun p => if p.1 = key then (p.1, p.2 + 1) else p
  else m ++ [(key, 1)]

/-- Model of `str(x or fallback)` for the breakdown keys: in the typed model the
field is always a string, so only the empty string is falsy. -/
def orElseStr (s fallback : String) : String :=
  if s = "" then fallback else s

/-- Embedding of `runner._failure_breakdown`: count failures by code, category, phase. -/
def _failure_breakdown (failures : List Failure) : FailureBreakdown :=
  failures.foldl
    (fun acc row =>
      ⟨bump acc.by_code (orElseStr row.info.error_code "UNKNOWN"),
       bump acc.by_category (orElseStr row.info.error_category "unknown"),
       bump acc.by_phase (orElseStr row.info.phase "unknown")⟩)
    ⟨[], [], []⟩

/-! ## `runner.py`: question selection -/

/-- Python list indexing, which raises `IndexError` out of range. -/
def pyIndex {α : Type} (l : List α) (i : ℕ) : Except PyExc α :=
  match l.get? i with
  | some a => .ok a
  | none => .error (.otherError "IndexError" "list index out of range")

/-- The list comprehension `[selected[i] for i in indices]`, propagating a
possible `IndexError`. -/
def pyGetEach {α : Type} (l : List α) : List ℕ → Except PyExc (List α)
  | [] => .ok []
  | i :: rest =>
      match pyIndex l i with
      | .error e => .error e
      | .ok a =>
          match pyGetEach l rest with
          | .error e => .error e
          | .ok as => .ok (a :: as)

/-- Embedding of `runner._select_questions`.  The seeded draw
`random.Random(seed).sample(range(n), k)` is passed in as the function
`sample : seed → n → k → indices` (deterministic in its arguments, like the
freshly seeded generator it models; reproducing Python's Mersenne-Twister
index choice bit-for-bit is out of scope — its internal branch selection
even involves floating-point `log` — and no claim depends on which indices
are drawn).  The drawn indices are sorted ascending (`sorted(...)`) and the
sampled questions are read off in that order; `limit` then truncates. -/
def _select_questions {α : Type} (sample : ℤ → ℕ → ℕ → List ℕ)
    (questions : List α) (limit sample_size sample_seed : Option ℤ) :
    Except PyExc (List α) :=
  let selected := questions
  let afterSample : Except PyExc (List α) :=
    match sample_size with
    | none => .ok selected
    | some sz =>
        if sz ≤ 0 then .error (.valueError "sample_size must be > 0")
        else if (selected.length : ℤ) < sz then
          let n := selected.length
          .error (.valueError s!"sample_size={sz} exceeds available questions={n}")
        else
          let indices := (sample (sample_seed.getD 0) selected.length sz.toNat).mergeSort
          pyGetEach selected indices
  match afterSample with
  | .error e => .error e
  | .ok selected =>
      match limit with
      | none => .ok selected
      | some l =>
          if l < 0 then .error (.valueError "limit must be >= 0")
          else .ok (selected.take l.toNat)

set_option linter.unusedVariables false in
/-- The question-selection step exactly as performed inside
`run_retrieval_benchmark`: the enclosing run has a `run_id` in scope, but
the selection call does not receive it. -/
def selectionStep {α : Type} (run_id : String) (sample : ℤ → ℕ → ℕ → List ℕ)
    (questions : List α) (limit sample_size sample_seed : Option ℤ) :
    Except PyExc (List α) :=
  _select_questions sample questions limit sample_size sample_seed

/-- The inner `for s in q.sessions` dedup loop of `runner._unique_sessions`
over the flattened session stream, with `seen` the set of already-kept
session ids. -/
def uniqueSessionsGo (seen : List String) : List Session → List Session
  | [] => []
  | s :: rest =>
      if s.session_id ∈ seen then uniqueSessionsGo seen rest
      else s :: uniqueSessionsGo (s.session_id :: seen) rest

/-- Embedding of `runner._unique_sessions`: all selected questions' sessions,
deduplicated by `session_id`, first occurrence winning. -/
def _unique_sessions (questions : List RetrievalQuestion) : List Session :=
  uniqueSessionsGo [] ((questions.map fun q => q.sessions).flatten)

/-! ## `runner.py`: the benchmark loop -/

/-- One provider call made by the runner, as recorded in the run trace.
`init` models the adapter's `initialize(provider_config)` call; the
`awaitIndexing` event does not repeat the ingest payload it is passed. -/
inductive AdapterEvent where
  | init
  | clear (container_tag : String)
  | ingest (sessions : List Session) (container_tag : String)
  | awaitIndexing (container_tag : String)
  | search (query : String) (container_tag : String) (limit : ℤ)

/-- Is this event an `ingest` call? -/
def AdapterEvent.isIngest : AdapterEvent → Bool
  | .ingest _ _ => true
  | _ => false

/-- The adapter capability contract (`protocol.MemoryAdapter`), modelled as
state-passing functions over an adapter-private state `σ`: each operation
returns the Python outcome (`Except` for a possible exception) together
with the successor state (a raising call may still have mutated adapter
state).  `ρ` is the provider-specific ingest-result payload.  `init`
models `initialize` (the `provider_config` argument is part of the
adapter value itself, as is the registry lookup by provider name). -/
structure Adapter (σ ρ : Type) where
  init : σ → Except PyExc Unit × σ
  ingest : List Session → String → σ → Except PyExc ρ × σ
  awaitIndexing : ρ → String → σ → Except PyExc Unit × σ
  search : String → String → ℤ → σ → Except PyExc (List SearchHit) × σ
  clear : String → σ → Except PyExc Unit × σ

/-- The `ingest_result` value recorded in a per-question result row. -/
inductive IngestRecord (ρ : Type) where
  | skipped
  | preindexed (container_tag : String) (global_ingest_result : Option ρ)
  | fromAdapter (result : ρ)

/-- A per-question success row (`results.append({...})` in the runner).
`latency_ms` is a wall-clock measurement and is not modelled. -/
structure ResultRow (ρ : Type) where
  question_id : String
  question : String
  question_type : String
  ground_truth : String
  relevant_session_ids : List String
  retrieved_session_ids : List String
  retrieved_observation_ids : List String
  retrieved_sources : List String
  ingest_result : IngestRecord ρ
  metrics : RetrievalMetrics

/-- Outcome of (part of) one question iteration: successor adapter state,
the provider calls made, and at most one result row or failure record. -/
structure StepOut (σ ρ : Type) where
  st : σ
  events : List AdapterEvent
  row? : Option (ResultRow ρ)
  fail? : Option Failure

/-- The `try:` block of one question iteration of `run_retrieval_benchmark`:
clear / ingest / await-indexing (skipped in pre-index mode, where the
recorded ingest result is the `{"ingest": "preindexed", ...}` dict), then
search and score.  An exception in any phase yields the classified failure
for the phase variable's value at that point. -/
noncomputable def questionBody {σ ρ : Type} (ad : Adapter σ ρ) (st : σ)
    (q : RetrievalQuestion) (top_k : ℤ) (skip_ingest preindex_once : Bool)
    (preindex_tag : String) (preindex_result : Option ρ)
    (container_tag : String) : StepOut σ ρ :=
  let fail := fun (st' : σ) (evs : List AdapterEvent) (phase : String) (e : PyExc) =>
    StepOut.mk st' evs none (some ⟨q.question_id, _classify_failure e phase⟩)
  let searchScore := fun (st' : σ) (evs : List AdapterEvent) (ing : IngestRecord ρ) =>
    match ad.search q.question container_tag top_k st' with
    | (.error e, st2) =>
        fail st2 (evs ++ [.search q.question container_tag top_k]) "search" e
    | (.ok hits, st2) =>
        let evs2 := evs ++ [.search q.question container_tag top_k]
        let retrieved :=
          (hits.map fun h => dictGetD h.metadata "session_id" "").filter fun x => x ≠ ""
        match score_retrieval retrieved q.relevant_session_ids top_k with
        | .error e => fail st2 evs2 "score" e
        | .ok m =>
            StepOut.mk st2 evs2
              (some ⟨q.question_id, q.question, q.question_type, q.ground_truth,
                     q.relevant_session_ids, retrieved, hits.map (fun h => h.id),
                     (hits.filterMap fun h => dictGetOpt h.metadata "path").filter
                       (fun p => p ≠ ""),
                     ing, m⟩)
              none
  if preindex_once then
    searchScore st [] (.preindexed preindex_tag preindex_result)
  else
    match ad.clear container_tag st with
    | (.error e, st1) => fail st1 [.clear container_tag] "clear" e
    | (.ok _, st1) =>
        if skip_ingest then
          searchScore st1 [.clear container_tag] .skipped
        else
          match ad.ingest q.sessions container_tag st1 with
          | (.error e, st2) =>
              fail st2 [.clear container_tag, .ingest q.sessions container_tag] "ingest" e
          | (.ok ing, st2) =>
              match ad.awaitIndexing ing container_tag st2 with
              | (.error e, st3) =>
                  fail st3
                    [.clear container_tag, .ingest q.sessions container_tag,
                     .awaitIndexing container_tag] "await_indexing" e
              | (.ok _, st3) =>
                  searchScore st3
                    [.clear container_tag, .ingest q.sessions container_tag,
                     .awaitIndexing container_tag] (.fromAdapter ing)

/-- One full question iteration: the `try` body followed by the `finally:`
cleanup `adapter.clear(container_tag)` (executed in non-pre-index mode
only), whose outcome — success or exception — is discarded. -/
noncomputable def questionStep {σ ρ : Type} (ad : Adapter σ ρ) (st : σ)
    (q : RetrievalQuestion) (top_k : ℤ) (skip_ingest preindex_once : Bool)
    (preindex_tag : String) (preindex_result : Option ρ)
    (container_tag : String) : StepOut σ ρ :=
  let out := questionBody ad st q top_k skip_ingest preindex_once preindex_tag
    preindex_result container_tag
  if preindex_once then out
  else
    let cleanup := ad.clear container_tag out.st
    ⟨cleanup.2, out.events ++ [.clear container_tag], out.row?, out.fail?⟩

/-- The `for idx, q in enumerate(questions)` loop of the runner.  `fails`
accumulates the failures recorded so far (consulted by the
skip-already-failed check and returned in full); the returned events and
rows are the loop's own contributions.  A question whose id is already in
`fails` is skipped (`break` under fail-fast, `continue` otherwise, with no
cleanup); otherwise the full iteration runs and, under fail-fast, a failed
iteration stops the loop after its cleanup. -/
noncomputable def runLoop {σ ρ : Type} (ad : Adapter σ ρ) (run_id : String)
    (top_k : ℤ) (skip_ingest preindex_once fail_fast : Bool)
    (preindex_tag : String) (preindex_result : Option ρ) :
    List RetrievalQuestion → σ → List Failure →
      σ × List AdapterEvent × List (ResultRow ρ) × List Failure
  | [], st, fails => (st, [], [], fails)
  | q :: rest, st, fails =>
      let container_tag :=
        if preindex_once then preindex_tag else run_id ++ ":" ++ q.question_id
      if fails.any fun f => f.question_id = q.question_id then
        if fail_fast then (st, [], [], fails)
        else runLoop ad run_id top_k skip_ingest preindex_once fail_fast
          preindex_tag preindex_result rest st fails
      else
        let out := questionStep ad st q top_k skip_ingest preindex_once
          preindex_tag preindex_result container_tag
        let fails1 := fails ++ out.fail?.toList
        if fail_fast && out.fail?.isSome then
          (out.st, out.events, out.row?.toList, fails1)
        else
          let r := runLoop ad run_id top_k skip_ingest preindex_once fail_fast
            preindex_tag preindex_result rest out.st fails1
          (r.1, out.events ++ r.2.1, out.row?.toList ++ r.2.2.1, r.2.2.2)

/-- Embedding of `runner._safe_mean` over exact rationals. -/
def _safe_mean (values : List ℚ) : ℚ :=
  if values = [] then 0 else values.sum / values.length

/-- Embedding of `runner._safe_mean` for the real-valued NDCG column. -/
noncomputable def safeMeanReal (values : List ℝ) : ℝ :=
  if values = [] then 0 else values.sum / values.length

/-- The report returned by `run_retrieval_benchmark`.  Wall-clock fields
(`created_at_utc`, the `latency` block, the per-type latency percentiles)
and the `by_question_type` / `manifest` blocks are not modelled: no claim
mentions them and they influence no modelled field. -/
structure Report (ρ : Type) where
  schema : String
  run_id : String
  provider : String
  dataset : String
  top_k : ℤ
  config_skip_ingest : Bool
  config_preindex_once : Bool
  config_sample_size : Option ℤ
  config_sample_seed : Option ℤ
  questions_total : ℕ
  questions_succeeded : ℕ
  questions_failed : ℕ
  hit_at_k : ℚ
  precision_at_k : ℚ
  recall_at_k : ℚ
  mrr : ℚ
  ndcg_at_k : ℝ
  failure_breakdown : FailureBreakdown
  results : List (ResultRow ρ)
  failures : List Failure

/-- Pre-marking of every selected question when the pre-index step raises:
each question gets the same classified failure with phase `"preindex"`. -/
def premarkFailures (questions : List RetrievalQuestion) (e : PyExc) : List Failure :=
  questions.map fun q => ⟨q.question_id, _classify_failure e "preindex"⟩

/-- Test `value.strip() == ""`: every character is whitespace.  (Python's strip
set additionally contains \x0b and \x0c; no claim distinguishes them.) -/
def pyBlank (s : String) : Bool :=
  s.data.all fun c => c.isWhitespace

/-- Embedding of `validation._require_non_empty_str` on an actual string value:
contributes a path-qualified error exactly when the string is blank. -/
def requireNonEmptyStr (value : String) (path : String) : List String :=
  if pyBlank value then [path ++ ": must be a non-empty string"] else []

/-- Embedding of `validation.SchemaValidationError.__init__`: the exception message
composed from the error list. -/
def schemaValidationMsg (errors : List String) : String :=
  let msg := "schema validation failed"
  if errors = [] then msg
  else
    let msg := msg ++ ": " ++ String.intercalate "; " (errors.take 5)
    if 5 < errors.length then
      let extra := errors.length - 5
      msg ++ s!" ... (+{extra} more)"
    else msg

/-- Embedding of `validation.validate_retrieval_report_payload` restricted to the typed
report model: the `isinstance` / number / integer / list shape checks hold
by construction in the typed embedding (and `created_at_utc` is an
unmodelled wall-clock string, always non-empty), so exactly the
non-empty-string requirements remain.  Errors accumulate in source order. -/
def reportValidationErrors {ρ : Type} (r : Report ρ) : List String :=
  requireNonEmptyStr r.schema "report.schema" ++
  requireNonEmptyStr r.run_id "report.run_id" ++
  requireNonEmptyStr r.provider "report.provider" ++
  requireNonEmptyStr r.dataset "report.dataset" ++
  ((r.failure_breakdown.by_code.map fun kv =>
    requireNonEmptyStr kv.1 "report.summary.failure_breakdown.by_code key").flatten) ++
  ((r.failure_breakdown.by_category.map fun kv =>
    requireNonEmptyStr kv.1 "report.summary.failure_breakdown.by_category key").flatten) ++
  ((r.failure_breakdown.by_phase.map fun kv =>
    requireNonEmptyStr kv.1 "report.summary.failure_breakdown.by_phase key").flatten) ++
  ((r.results.enum.map fun p =>
    let i := p.1
    let row := p.2
    requireNonEmptyStr row.question_id s!"report.results[{i}].question_id" ++
    requireNonEmptyStr row.question s!"report.results[{i}].question" ++
    requireNonEmptyStr row.question_type s!"report.results[{i}].question_type" ++
    requireNonEmptyStr row.ground_truth s!"report.results[{i}].ground_truth").flatten) ++
  ((r.failures.enum.map fun p =>
    let i := p.1
    let f := p.2
    requireNonEmptyStr f.question_id s!"report.failures[{i}].question_id" ++
    requireNonEmptyStr f.info.phase s!"report.failures[{i}].phase" ++
    requireNonEmptyStr f.info.error_code s!"report.failures[{i}].error_code" ++
    requireNonEmptyStr f.info.error_category s!"report.failures[{i}].error_category" ++
    requireNonEmptyStr f.info.exception_type s!"report.failures[{i}].exception_type" ++
    requireNonEmptyStr f.info.error s!"report.failures[{i}].error").flatten)

/-- The tail of `run_retrieval_benchmark` after question selection and the
pre-index block: the main loop, the final pre-index cleanup clear, the
report assembly, and report validation.  `evsP` and `fails0` are the
events and pre-marked failures contributed by the pre-index block. -/
noncomputable def runFinish {σ ρ : Type} (ad : Adapter σ ρ)
    (provider dataset_name : String) (top_k : ℤ) (run_id : String)
    (fail_fast : Bool) (sample_size sample_seed : Option ℤ)
    (skip_ingest preindex_once : Bool) (preindex_tag : String)
    (questions : List RetrievalQuestion) (stP : σ)
    (evsP : List AdapterEvent) (fails0 : List Failure)
    (preindex_result : Option ρ) : List AdapterEvent × Except PyExc (Report ρ) :=
  let loopOut := runLoop ad run_id top_k skip_ingest preindex_once fail_fast
    preindex_tag preindex_result questions stP fails0
  let evsL := loopOut.2.1
  let rows := loopOut.2.2.1
  let fails := loopOut.2.2.2
  -- final `if preindex_once: adapter.clear(preindex_tag)` (best-effort)
  let finalEvs : List AdapterEvent :=
    if preindex_once then [.clear preindex_tag] else []
  let events := .init :: (evsP ++ evsL ++ finalEvs)
  let report : Report ρ :=
    { schema := "openclaw-memory-bench/retrieval-report/v0.2"
      run_id := run_id
      provider := provider
      dataset := dataset_name
      top_k := top_k
      config_skip_ingest := skip_ingest
      config_preindex_once := preindex_once
      config_sample_size := sample_size
      config_sample_seed := sample_seed
      questions_total := questions.length
      questions_succeeded := rows.length
      questions_failed := fails.length
      hit_at_k := _safe_mean (rows.map fun r => r.metrics.hit_at_k)
      precision_at_k := _safe_mean (rows.map fun r => r.metrics.precision_at_k)
      recall_at_k := _safe_mean (rows.map fun r => r.metrics.recall_at_k)
      mrr := _safe_mean (rows.map fun r => r.metrics.mrr)
      ndcg_at_k := safeMeanReal (rows.map fun r => r.metrics.ndcg_at_k)
      failure_breakdown := _failure_breakdown fails
      results := rows
      failures := fails }
  if reportValidationErrors report = [] then (events, .ok report)
  else
    (events, .error (.schemaValidationError
      (schemaValidationMsg (reportValidationErrors report))))

/-- Embedding of `runner.run_retrieval_benchmark`, parameterized by the adapter with its
initial state (the `available_adapters()[provider]()` registry lookup and
construction are out of scope — an unknown provider name raising
`ValueError` before anything else is not modelled) and by the seeded
sampler (see `_select_questions`).  Returns the full ordered trace of
provider calls together with either the validated report or the raised
exception. -/
noncomputable def run_retrieval_benchmark {σ ρ : Type} (ad : Adapter σ ρ)
    (st0 : σ) (sample : ℤ → ℕ → ℕ → List ℕ) (provider : String)
    (dataset : RetrievalDataset) (top_k : ℤ) (run_id : String)
    (fail_fast : Bool) (limit sample_size sample_seed : Option ℤ)
    (skip_ingest preindex_once : Bool) :
    List AdapterEvent × Except PyExc (Report ρ) :=
  match ad.init st0 with
  | (.error e, _) => ([.init], .error e)
  | (.ok _, st1) =>
    match selectionStep run_id sample dataset.questions limit sample_size sample_seed with
    | .error e => ([.init], .error e)
    | .ok questions =>
      let preindex_tag := run_id ++ ":GLOBAL"
      -- the `if preindex_once and not skip_ingest:` pre-index block
      if preindex_once && !skip_ingest then
        match ad.clear preindex_tag st1 with
        | (.error e, st2) =>
            runFinish ad provider dataset.name top_k run_id fail_fast
              sample_size sample_seed skip_ingest preindex_once preindex_tag
              questions st2 [.clear preindex_tag]
              (premarkFailures questions e) none
        | (.ok _, st2) =>
          match ad.ingest (_unique_sessions questions) preindex_tag st2 with
          | (.error e, st3) =>
              runFinish ad provider dataset.name top_k run_id fail_fast
                sample_size sample_seed skip_ingest preindex_once preindex_tag
                questions st3
                [.clear preindex_tag, .ingest (_unique_sessions questions) preindex_tag]
                (premarkFailures questions e) none
          | (.ok ri, st3) =>
            match ad.awaitIndexing ri preindex_tag st3 with
            | (.error e, st4) =>
                runFinish ad provider dataset.name top_k run_id fail_fast
                  sample_size sample_seed skip_ingest preindex_once preindex_tag
                  questions st4
                  [.clear preindex_tag, .ingest (_unique_sessions questions) preindex_tag,
                   .awaitIndexing preindex_tag]
                  (premarkFailures questions e) (some ri)
            | (.ok _, st4) =>
                runFinish ad provider dataset.name top_k run_id fail_fast
                  sample_size sample_seed skip_ingest preindex_once preindex_tag
                  questions st4
                  [.clear preindex_tag, .ingest (_unique_sessions questions) preindex_tag,
                   .awaitIndexing preindex_tag]
                  [] (some ri)
      else
        runFinish ad provider dataset.name top_k run_id fail_fast
          sample_size sample_seed skip_ingest preindex_once preindex_tag
          questions st1 [] [] none

/-! ## `validation.py` and `dataset.py` (dataset loading) -/

/-- Python truthiness of a JSON value. -/
def JVal.truthy : JVal → Bool
  | .null => false
  | .bool b => b
  | .int n => n ≠ 0
  | .str s => s ≠ ""
  | .list xs => !xs.isEmpty
  | .dict kvs => !kvs.isEmpty

/-- Model of `str(x)` on a JSON value.  The scalar cases follow Python exactly; the
renderings of lists/dicts are placeholders (no claim evaluates them: the
loader applies `str` only where the payload carries scalars). -/
def JVal.pyStr : JVal → String
  | .null => "None"
  | .bool true => "True"
  | .bool false => "False"
  | .int n => toString n
  | .str s => s
  | .list _ => "[...]"
  | .dict _ => "\x7b...\x7d"

/-- Model of `str(x or "")`, the loader's idiom for optional string fields. -/
def JVal.pyStrOr (v : JVal) : String :=
  if v.truthy then v.pyStr else ""

/-- Model of `d.get(key)` on a JSON object (`None` when the key is missing). -/
def jGet (kvs : List (String × JVal)) (key : String) : JVal :=
  match kvs.find? fun p => p.1 = key with
  | some p => p.2
  | none => .null

/-- Approximation of Python's `repr` of a list of strings, used only inside
error messages. -/
def pyReprStrList (xs : List String) : String :=
  "[" ++ String.intercalate ", " (xs.map fun s => "\x27" ++ s ++ "\x27") ++ "]"

/-- Embedding of `validation._require`: contribute `"{path}: {message}"` when the
condition fails. -/
def requireCond (c : Prop) [Decidable c] (path message : String) : List String :=
  if c then [] else [path ++ ": " ++ message]

/-- Embedding of `validation._require_non_empty_str` on a JSON value. -/
def jRequireNonEmptyStr (v : JVal) (path : String) : List String :=
  match v with
  | .str s => if pyBlank s then [path ++ ": must be a non-empty string"] else []
  | _ => [path ++ ": must be a non-empty string"]

/-- Embedding of `validation._require_list`: the element list (empty if not a list)
paired with the contributed error. -/
def jRequireList (v : JVal) (path : String) : List JVal × List String :=
  match v with
  | .list xs => (xs, [])
  | _ => ([], [path ++ ": must be a list"])

/-- The `session_ids` set accumulated by `validate_dataset_payload`'s
session loop: ids of sessions that are objects with a non-blank string
`session_id` (only membership is consulted, so a list models the set). -/
def collectSessionIds (sessions : List JVal) : List String :=
  (sessions.map fun s =>
    match s with
    | .dict skv =>
        match jGet skv "session_id" with
        | .str sid => if !pyBlank sid then [sid] else []
        | _ => []
    | _ => []).flatten

/-- The role condition `isinstance(role, str) and role in _ALLOWED_ROLES`. -/
def roleAllowed (v : JVal) : Bool :=
  match v with
  | .str r => r ∈ ["user", "assistant", "system", "tool"]
  | _ => false

/-- Errors contributed for one message by `validate_dataset_payload`. -/
def validateMessageErrors (spath : String) (mi : ℕ) (m : JVal) : List String :=
  let mpath := spath ++ ".messages[" ++ toString mi ++ "]"
  match m with
  | .dict mkv =>
      requireCond (roleAllowed (jGet mkv "role") = true)
        (mpath ++ ".role")
        "must be one of [\x27assistant\x27, \x27system\x27, \x27tool\x27, \x27user\x27]" ++
      jRequireNonEmptyStr (jGet mkv "content") (mpath ++ ".content")
  | _ => [mpath ++ ": must be an object"]

/-- Errors contributed for one session by `validate_dataset_payload`. -/
def validateSessionErrors (qpath : String) (si : ℕ) (s : JVal) : List String :=
  let spath := qpath ++ ".sessions[" ++ toString si ++ "]"
  match s with
  | .dict skv =>
      jRequireNonEmptyStr (jGet skv "session_id") (spath ++ ".session_id") ++
      (let ml := jRequireList (jGet skv "messages") (spath ++ ".messages")
       ml.2 ++
       requireCond (0 < ml.1.length) (spath ++ ".messages") "must be a non-empty list" ++
       (ml.1.enum.map fun p => validateMessageErrors spath p.1 p.2).flatten)
  | _ => [spath ++ ": must be an object"]

/-- Errors contributed for one `relevant_session_ids` entry. -/
def validateRelErrors (qpath : String) (session_ids : List String) (ri : ℕ)
    (sid : JVal) : List String :=
  let rpath := qpath ++ ".relevant_session_ids[" ++ toString ri ++ "]"
  jRequireNonEmptyStr sid rpath ++
  (match sid with
   | .str s =>
       if !pyBlank s ∧ session_ids ≠ [] then
         requireCond (s ∈ session_ids) rpath "must reference an existing session_id"
       else []
   | _ => [])

/-- Errors contributed for one question by `validate_dataset_payload`
(a non-object question contributes only its shape error, as with the
`continue` in the source). -/
def validateQuestionErrors (qi : ℕ) (q : JVal) : List String :=
  let qpath := "dataset.questions[" ++ toString qi ++ "]"
  match q with
  | .dict qkv =>
      jRequireNonEmptyStr (jGet qkv "question_id") (qpath ++ ".question_id") ++
      jRequireNonEmptyStr (jGet qkv "question") (qpath ++ ".question") ++
      jRequireNonEmptyStr (jGet qkv "ground_truth") (qpath ++ ".ground_truth") ++
      jRequireNonEmptyStr (jGet qkv "question_type") (qpath ++ ".question_type") ++
      (let sl := jRequireList (jGet qkv "sessions") (qpath ++ ".sessions")
       let session_ids := collectSessionIds sl.1
       sl.2 ++
       requireCond (0 < sl.1.length) (qpath ++ ".sessions") "must be a non-empty list" ++
       (sl.1.enum.map fun p => validateSessionErrors qpath p.1 p.2).flatten ++
       (let rl := jRequireList (jGet qkv "relevant_session_ids")
          (qpath ++ ".relevant_session_ids")
        rl.2 ++
        requireCond (0 < rl.1.length) (qpath ++ ".relevant_session_ids")
          "must be a non-empty list" ++
        (rl.1.enum.map fun p => validateRelErrors qpath session_ids p.1 p.2).flatten))
  | _ => [qpath ++ ": must be an object"]

/-- The full error list accumulated by `validate_dataset_payload` on an
object payload. -/
def validateDatasetErrors (kvs : List (String × JVal)) : List String :=
  jRequireNonEmptyStr (jGet kvs "name") "dataset.name" ++
  (let ql := jRequireList (jGet kvs "questions") "dataset.questions"
   ql.2 ++
   requireCond (0 < ql.1.length) "dataset.questions" "must be a non-empty list" ++
   (ql.1.enum.map fun p => validateQuestionErrors p.1 p.2).flatten)

/-- Embedding of `validation.validate_dataset_payload`: raise `SchemaValidationError`
when any structural requirement fails. -/
def validate_dataset_payload (payload : JVal) : Except PyExc Unit :=
  match payload with
  | .dict kvs =>
      let errors := validateDatasetErrors kvs
      if errors = [] then .ok ()
      else .error (.schemaValidationError (schemaValidationMsg errors))
  | _ =>
      .error (.schemaValidationError (schemaValidationMsg ["dataset: must be an object"]))

/-- The message-building loop of `dataset._build_session`. -/
def buildMessages (sid : String) : List JVal → Except PyExc (List SessionMessage)
  | [] => .ok []
  | m :: rest =>
      match m with
      | .dict mkv =>
          let role := (jGet mkv "role").pyStrOr
          let content := (jGet mkv "content").pyStrOr
          let ts := jGet mkv "ts"
          if role ∉ (["user", "assistant", "system", "tool"] : List String) then
            .error (.valueError ("session " ++ sid ++ ": unsupported role \x27" ++ role ++ "\x27"))
          else if pyBlank content then
            .error (.valueError ("session " ++ sid ++ ": message content cannot be empty"))
          else
            match buildMessages sid rest with
            | .error e => .error e
            | .ok ms => .ok (⟨role, content, ts⟩ :: ms)
      | _ => .error (.otherError "AttributeError" "object has no attribute get")

/-- Embedding of `dataset._build_session` (a non-object element raises the
`AttributeError` Python would produce on `raw.get`). -/
def _build_session (raw : JVal) : Except PyExc Session :=
  match raw with
  | .dict kvs =>
      let sid := (jGet kvs "session_id").pyStrOr
      if sid = "" then .error (.valueError "session_id is required")
      else
        match jGet kvs "messages" with
        | .list ms =>
            if ms.isEmpty then
              .error (.valueError ("session " ++ sid ++ ": messages must be a non-empty list"))
            else
              match buildMessages sid ms with
              | .error e => .error e
              | .ok messages =>
                  let metadata :=
                    match jGet kvs "metadata" with
                    | .dict mkv => mkv
                    | _ => []
                  .ok ⟨sid, messages, metadata⟩
        | _ => .error (.valueError ("session " ++ sid ++ ": messages must be a non-empty list"))
  | _ => .error (.otherError "AttributeError" "object has no attribute get")

/-- The session-building comprehension of the loader. -/
def buildSessions : List JVal → Except PyExc (List Session)
  | [] => .ok []
  | s :: rest =>
      match _build_session s with
      | .error e => .error e
      | .ok sess =>
          match buildSessions rest with
          | .error e => .error e
          | .ok ss => .ok (sess :: ss)

/-- The per-question construction step of `load_retrieval_dataset` (the code
after `validate_dataset_payload` has accepted the payload), including the
defaulting of a missing `relevant_session_ids` to the first session's id. -/
def buildQuestion (qv : JVal) : Except PyExc RetrievalQuestion :=
  match qv with
  | .dict qkv =>
      let qid := (jGet qkv "question_id").pyStrOr
      let question := (jGet qkv "question").pyStrOr
      let ground_truth := (jGet qkv "ground_truth").pyStrOr
      let question_type :=
        if (jGet qkv "question_type").truthy then (jGet qkv "question_type").pyStr
        else "generic"
      if qid = "" ∨ question = "" ∨ ground_truth = "" then
        .error (.valueError "question requires question_id, question, ground_truth")
      else
        match jGet qkv "sessions" with
        | .list ss =>
            if ss.isEmpty then
              .error (.valueError ("question " ++ qid ++ ": sessions must be a non-empty list"))
            else
              match buildSessions ss with
              | .error e => .error e
              | .ok sessions =>
                  let known_session_ids := sessions.map fun s => s.session_id
                  let relE : Except PyExc (List String) :=
                    match jGet qkv "relevant_session_ids" with
                    | .null =>
                        match sessions.head? with
                        | some s0 => .ok [s0.session_id]
                        | none => .error (.otherError "IndexError" "list index out of range")
                    | .list rel =>
                        if rel.isEmpty then
                          .error (.valueError ("question " ++ qid ++
                            ": relevant_session_ids must be a non-empty list"))
                        else .ok (rel.map fun x => x.pyStr)
                    | _ =>
                        .error (.valueError ("question " ++ qid ++
                          ": relevant_session_ids must be a non-empty list"))
                  match relE with
                  | .error e => .error e
                  | .ok relevant_session_ids =>
                      let unknown := relevant_session_ids.filter
                        fun sid => sid ∉ known_session_ids
                      if unknown ≠ [] then
                        .error (.valueError ("question " ++ qid ++
                          ": unknown relevant_session_ids: " ++ pyReprStrList unknown))
                      else
                        .ok ⟨qid, question, ground_truth, question_type, sessions,
                             relevant_session_ids⟩
        | _ => .error (.valueError ("question " ++ qid ++ ": sessions must be a non-empty list"))
  | _ => .error (.otherError "AttributeError" "object has no attribute get")

/-- The question-building loop of the loader. -/
def buildQuestions : List JVal → Except PyExc (List RetrievalQuestion)
  | [] => .ok []
  | q :: rest =>
      match buildQuestion q with
      | .error e => .error e
      | .ok rq =>
          match buildQuestions rest with
          | .error e => .error e
          | .ok rqs => .ok (rq :: rqs)

/-- Embedding of `dataset.load_retrieval_dataset` from an already-parsed JSON payload
(the filesystem existence check and `json.loads` are out of scope; `stem`
is the file-path stem used as the fallback dataset name). -/
def load_retrieval_dataset_payload (stem : String) (raw : JVal) :
    Except PyExc RetrievalDataset :=
  match raw with
  | .dict kvs =>
      match validate_dataset_payload (.dict kvs) with
      | .error e => .error e
      | .ok _ =>
          let name := if (jGet kvs "name").truthy then (jGet kvs "name").pyStr else stem
          match jGet kvs "questions" with
          | .list qs =>
              if qs.isEmpty then
                .error (.valueError "dataset.questions must be a non-empty list")
              else
                match buildQuestions qs with
                | .error e => .error e
                | .ok questions => .ok ⟨name, questions⟩
          | _ => .error (.valueError "dataset.questions must be a non-empty list")
  | _ => .error (.valueError "dataset root must be an object")

/-! ## Concrete fixtures (mirroring the repository's test doubles) -/

/-- A sampler that is never consulted (runs without `sample_size`). -/
def noSample : ℤ → ℕ → ℕ → List ℕ := fun _ _ _ => []

/-- The single-question dataset of the tests (`_mini_dataset`). -/
def miniQuestion : RetrievalQuestion :=
  ⟨"q1", "where?", "taipei", "fact",
   [⟨"s1", [⟨"user", "meeting in Taipei", .null⟩], []⟩], ["s1"]⟩

/-- A second question for multi-question runs. -/
def miniQuestion2 : RetrievalQuestion :=
  ⟨"q2", "when?", "monday", "fact",
   [⟨"s2", [⟨"user", "meeting on Monday", .null⟩], []⟩], ["s2"]⟩

/-- One-question dataset. -/
def miniDataset : RetrievalDataset := ⟨"mini", [miniQuestion]⟩

/-- Two-question dataset. -/
def miniDataset2 : RetrievalDataset := ⟨"multi", [miniQuestion, miniQuestion2]⟩

/-- The always-succeeding adapter of the tests (`_SuccessAdapter`): search
returns one hit whose metadata carries `session_id` s1 and a path. -/
def successAdapter : Adapter Unit Unit :=
  ⟨fun s => (.ok (), s),
   fun _ _ s => (.ok (), s),
   fun _ _ s => (.ok (), s),
   fun _ _ _ s =>
     (.ok [⟨"1", "answer", 1, [("session_id", "s1"), ("path", "memory/session-s1.md")]⟩], s),
   fun _ s => (.ok (), s)⟩

/-- The timing-out adapter of the tests (`_TimeoutAdapter`): `search` raises
`subprocess.TimeoutExpired`. -/
def timeoutAdapter : Adapter Unit Unit :=
  ⟨fun s => (.ok (), s),
   fun _ _ s => (.ok (), s),
   fun _ _ s => (.ok (), s),
   fun _ _ _ s => (.error (.timeoutExpired "Command fake-cmd timed out after 5 seconds"), s),
   fun _ s => (.ok (), s)⟩

/-- A dataset question payload that omits `relevant_session_ids` but is
otherwise fully valid. -/
def omitRelQuestion : JVal :=
  .dict [("question_id", .str "q1"), ("question", .str "where?"),
         ("ground_truth", .str "taipei"), ("question_type", .str "fact"),
         ("sessions", .list [.dict [("session_id", .str "s1"),
           ("messages", .list [.dict [("role", .str "user"),
             ("content", .str "meeting in Taipei")]])]])]

/-- A dataset payload whose single question omits `relevant_session_ids`. -/
def omitRelPayload : JVal :=
  .dict [("name", .str "mini"), ("questions", .list [omitRelQuestion])]

/-! ## Theorems settling the claims -/

/-- Claim C2: for every `retrieved_ids` list and every `k > 0`, scoring
against an empty `relevant_ids` sequence yields all five metrics equal to
`0.0` (the degenerate branch; no division is performed). -/
theorem score_retrieval_empty_relevant (retrieved_ids : List String) (k : ℤ)
    (hk : 0 < k) :
    score_retrieval retrieved_ids [] k = .ok ⟨0, 0, 0, 0, 0⟩ := by
  unfold score_retrieval
  rw [if_neg (by omega), if_pos (by simp)]

/-- Witness for C2 at a concrete input. -/
theorem score_retrieval_empty_relevant_witness :
    score_retrieval ["a", "b"] [] 3 = .ok ⟨0, 0, 0, 0, 0⟩ :=
  score_retrieval_empty_relevant ["a", "b"] 3 (by decide)

/-- Every id emitted by `dedupeGo` comes from the input and is not in `seen`. -/
theorem mem_dedupeGo {seen l : List String} {x : String} (h : x ∈ dedupeGo seen l) :
    x ∈ l ∧ x ∉ seen := by
  induction l generalizing seen with
  | nil => cases h
  | cons y rest ih =>
      rw [dedupeGo] at h
      split at h
      · rcases ih h with ⟨h1, h2⟩
        exact ⟨List.mem_cons_of_mem _ h1, h2⟩
      · rcases List.mem_cons.mp h with rfl | h'
        · exact ⟨List.mem_cons_self _ _, by assumption⟩
        · rcases ih h' with ⟨h1, h2⟩
          exact ⟨List.mem_cons_of_mem _ h1, fun hx => h2 (List.mem_cons_of_mem _ hx)⟩

/-- The list `dedupeGo` emits has no duplicates. -/
theorem nodup_dedupeGo (seen l : List String) : (dedupeGo seen l).Nodup := by
  induction l generalizing seen with
  | nil => exact List.nodup_nil
  | cons y rest ih =>
      rw [dedupeGo]
      split
      · exact ih seen
      · refine List.nodup_cons.mpr ⟨fun hy => ?_, ih (y :: seen)⟩
        exact (mem_dedupeGo hy).2 (List.mem_cons_self _ _)

/-- The ranked list built by `_dedupe_keep_order` has no duplicates. -/
theorem nodup_dedupe_keep_order (l : List String) : (dedupe_keep_order l).Nodup :=
  nodup_dedupeGo [] l

/-- A 0/1 indicator sum over a list is at most the list length. -/
theorem sum_indicator_le_length {α : Type} (p : α → Prop) [DecidablePred p]
    (l : List α) : (l.map fun x => if p x then (1 : ℕ) else 0).sum ≤ l.length := by
  induction l with
  | nil => simp
  | cons y rest ih =>
      simp only [List.map_cons, List.sum_cons, List.length_cons]
      have : (if p y then (1 : ℕ) else 0) ≤ 1 := by split <;> omega
      omega

/-- A membership-indicator sum over a duplicate-free list is at most the
cardinality of the membership set. -/
theorem sum_indicator_le_card {α : Type} [DecidableEq α] (s : Finset α)
    (l : List α) (hl : l.Nodup) :
    (l.map fun x => if x ∈ s then (1 : ℕ) else 0).sum ≤ s.card := by
  induction l generalizing s with
  | nil => simp
  | cons y rest ih =>
      rcases List.nodup_cons.mp hl with ⟨hy, hrest⟩
      simp only [List.map_cons, List.sum_cons]
      by_cases hys : y ∈ s
      · have hcongr : (rest.map fun x => if x ∈ s then (1 : ℕ) else 0) =
            rest.map fun x => if x ∈ s.erase y then (1 : ℕ) else 0 := by
          refine List.map_congr_left fun a ha => ?_
          have hay : a ≠ y := fun h => hy (h ▸ ha)
          simp [Finset.mem_erase, hay]
        rw [if_pos hys, hcongr]
        have h1 := ih (s.erase y) hrest
        have h2 : (s.erase y).card = s.card - 1 := Finset.card_erase_of_mem hys
        have h3 : 0 < s.card := Finset.card_pos.mpr ⟨y, hys⟩
        omega
      · rw [if_neg hys]
        simpa using ih s hrest

/-- The value of `reciprocalRank` is non-negative. -/
theorem reciprocalRank_nonneg (relevant : Finset String) (i : ℕ) (l : List String) :
    0 ≤ reciprocalRank relevant i l := by
  induction l generalizing i with
  | nil => simp [reciprocalRank]
  | cons y rest ih =>
      rw [reciprocalRank]
      split
      · positivity
      · exact ih (i + 1)

/-- The value of `reciprocalRank` is at most one. -/
theorem reciprocalRank_le_one (relevant : Finset String) (i : ℕ) (l : List String) :
    reciprocalRank relevant i l ≤ 1 := by
  induction l generalizing i with
  | nil => simp [reciprocalRank]
  | cons y rest ih =>
      rw [reciprocalRank]
      split
      · rw [div_le_one (by positivity)]
        have : (0 : ℚ) ≤ (i : ℚ) := Nat.cast_nonneg i
        linarith
      · exact ih (i + 1)

/-- The DCG discount weight is positive. -/
theorem logWeight_pos (i : ℕ) : 0 < logWeight i := by
  have h2 : (1 : ℝ) < (i : ℝ) + 2 := by
    have := Nat.cast_nonneg (α := ℝ) i
    linarith
  exact div_pos one_pos (Real.logb_pos one_lt_two h2)

/-- The DCG discount weight is antitone in the rank. -/
theorem logWeight_antitone {i j : ℕ} (h : i ≤ j) : logWeight j ≤ logWeight i := by
  have hi : (1 : ℝ) < (i : ℝ) + 2 := by
    have := Nat.cast_nonneg (α := ℝ) i
    linarith
  have hmono : Real.logb 2 ((i : ℝ) + 2) ≤ Real.logb 2 ((j : ℝ) + 2) := by
    have : (i : ℝ) ≤ (j : ℝ) := Nat.cast_le.mpr h
    exact Real.logb_le_logb_of_le one_lt_two (by linarith) (by linarith)
  exact one_div_le_one_div_of_le (Real.logb_pos one_lt_two hi) hmono

/-- The DCG accumulator is non-negative. -/
theorem dcgAux_nonneg (bs : List ℕ) : ∀ i : ℕ, 0 ≤ dcgAux i bs := by
  induction bs with
  | nil => intro i; simp [dcgAux]
  | cons r rest ih =>
      intro i
      rw [dcgAux]
      have h1 : (0 : ℝ) ≤ if r ≠ 0 then logWeight i else 0 := by
        split
        · exact (logWeight_pos i).le
        · exact le_refl 0
      have h2 := ih (i + 1)
      linarith

/-- Core DCG bound: starting at rank `i`, the accumulated DCG is at most the
sum of the first `c` weights `logWeight (i+j)`, where `c` counts the
non-zero entries of the binary relevance list. -/
theorem dcgAux_le_sum (bs : List ℕ) : ∀ i : ℕ,
    dcgAux i bs ≤
      ∑ j ∈ Finset.range (bs.map fun r => if r ≠ 0 then (1 : ℕ) else 0).sum,
        logWeight (i + j) := by
  induction bs with
  | nil => intro i; simp [dcgAux]
  | cons r rest ih =>
      intro i
      rw [dcgAux]
      by_cases hr : r ≠ 0
      · rw [if_pos hr]
        have hsum : ((r :: rest).map fun x => if x ≠ 0 then (1 : ℕ) else 0).sum =
            (rest.map fun x => if x ≠ 0 then (1 : ℕ) else 0).sum + 1 := by
          simp [hr, Nat.add_comm]
        rw [hsum, Finset.sum_range_succ']
        have h1 := ih (i + 1)
        have h2 : (∑ j ∈ Finset.range (rest.map fun x => if x ≠ 0 then (1 : ℕ) else 0).sum,
            logWeight ((i + 1) + j)) =
            ∑ j ∈ Finset.range (rest.map fun x => if x ≠ 0 then (1 : ℕ) else 0).sum,
            logWeight (i + (j + 1)) := by
          refine Finset.sum_congr rfl fun j _ => ?_
          congr 1
          omega
        rw [h2] at h1
        have : logWeight i = logWeight (i + 0) := by norm_num
        linarith [h1]
      · rw [if_neg hr]
        have hsum : ((r :: rest).map fun x => if x ≠ 0 then (1 : ℕ) else 0).sum =
            (rest.map fun x => if x ≠ 0 then (1 : ℕ) else 0).sum := by
          simp [hr]
        rw [hsum, zero_add]
        have h1 := ih (i + 1)
        have h2 : (∑ j ∈ Finset.range (rest.map fun x => if x ≠ 0 then (1 : ℕ) else 0).sum,
            logWeight ((i + 1) + j)) ≤
            ∑ j ∈ Finset.range (rest.map fun x => if x ≠ 0 then (1 : ℕ) else 0).sum,
            logWeight (i + j) := by
          refine Finset.sum_le_sum fun j _ => ?_
          exact logWeight_antitone (by omega)
        linarith

/-- Claim C3: `score_retrieval` first deduplicates keeping first-occurrence
order and then truncates to `k`; on `(["s2","s1","s1","s3"], ["s1"], k=3)`
the ranked list is `["s2","s1","s3"]` and the metrics are `hit = 1`,
`precision = 1/3`, `recall = 1`, `mrr = 1/2` (s1 at 0-indexed position 1
behind s2), and `ndcg = 1/log2 3 > 0`. -/
theorem score_retrieval_dedup_example :
    dedupe_keep_order ["s2", "s1", "s1", "s3"] = ["s2", "s1", "s3"] ∧
    score_retrieval ["s2", "s1", "s1", "s3"] ["s1"] 3 =
      .ok ⟨1, 1 / 3, 1, 1 / 2, 1 / Real.logb 2 3⟩ ∧
    0 < (1 / Real.logb 2 3 : ℝ) := by
  have hranked : dedupe_keep_order ["s2", "s1", "s1", "s3"] = ["s2", "s1", "s3"] := by
    decide
  have hpos : 0 < (1 / Real.logb 2 3 : ℝ) :=
    div_pos one_pos (Real.logb_pos one_lt_two (by norm_num))
  refine ⟨hranked, ?_, hpos⟩
  have hw0 : logWeight 0 = 1 := by simp [logWeight]
  have hw1 : logWeight 1 = 1 / Real.logb 2 3 := by norm_num [logWeight]
  have h21 : ¬("s2" : String) = "s1" := by decide
  have h31 : ¬("s3" : String) = "s1" := by decide
  have ht : Int.toNat 3 = 3 := rfl
  unfold score_retrieval
  rw [hranked]
  norm_num [reciprocalRank, dcgAux, hw0, hw1, h21, h31, ht]

/-- Claim C4: every metric returned by a non-raising `score_retrieval` call
lies in the closed interval `[0, 1]`: the deduplicated ranked list makes the
relevant-hit count at most `min |relevant| k`, so precision, recall, MRR and
NDCG (dcg ≤ idcg) are all bounded by one. -/
theorem score_retrieval_bounds (retrieved_ids relevant_ids : List String) (k : ℤ)
    (m : RetrievalMetrics) (h : score_retrieval retrieved_ids relevant_ids k = .ok m) :
    (0 ≤ m.hit_at_k ∧ m.hit_at_k ≤ 1) ∧
    (0 ≤ m.precision_at_k ∧ m.precision_at_k ≤ 1) ∧
    (0 ≤ m.recall_at_k ∧ m.recall_at_k ≤ 1) ∧
    (0 ≤ m.mrr ∧ m.mrr ≤ 1) ∧
    (0 ≤ m.ndcg_at_k ∧ m.ndcg_at_k ≤ 1) := by
  unfold score_retrieval at h
  rcases le_or_lt k 0 with hk | hk
  · rw [if_pos hk] at h
    cases h
  rw [if_neg (not_le.mpr hk)] at h
  dsimp only at h
  set ranked := (dedupe_keep_order retrieved_ids).take k.toNat with hranked
  set relevant := relevant_ids.toFinset with hrel
  by_cases hempty : relevant = ∅
  · rw [if_pos hempty] at h
    injection h with h'
    subst h'
    norm_num
  rw [if_neg hempty] at h
  injection h with h'
  subst h'
  dsimp only
  -- shared counting facts
  have hnodup : ranked.Nodup :=
    (List.take_sublist _ _).nodup (nodup_dedupe_keep_order retrieved_ids)
  have hsum_len : (ranked.map fun x => if x ∈ relevant then (1 : ℕ) else 0).sum ≤
      ranked.length := sum_indicator_le_length _ ranked
  have hlen : ranked.length ≤ k.toNat := by
    rw [hranked]
    exact (List.length_take _ _).le.trans (min_le_left _ _)
  have hsum_card : (ranked.map fun x => if x ∈ relevant then (1 : ℕ) else 0).sum ≤
      relevant.card := sum_indicator_le_card relevant ranked hnodup
  have hcardpos : 0 < relevant.card :=
    Finset.card_pos.mpr (Finset.nonempty_iff_ne_empty.mpr hempty)
  have hkq : (0 : ℚ) < (k : ℚ) := by exact_mod_cast hk
  have hknat : ((k.toNat : ℚ)) = (k : ℚ) := by
    exact_mod_cast congrArg (Int.cast : ℤ → ℚ) (Int.toNat_of_nonneg hk.le)
  refine ⟨?_, ?_, ?_, ?_, ?_⟩
  · constructor
    · split <;> norm_num
    · split <;> norm_num
  · constructor
    · positivity
    · rw [div_le_one hkq, ← hknat]
      exact_mod_cast hsum_len.trans hlen
  · constructor
    · positivity
    · rw [div_le_one (by exact_mod_cast hcardpos)]
      exact_mod_cast hsum_card
  · exact ⟨reciprocalRank_nonneg relevant 0 ranked, reciprocalRank_le_one relevant 0 ranked⟩
  · set binary := ranked.map fun x => if x ∈ relevant then (1 : ℕ) else 0 with hbin
    have hnz : (binary.map fun r => if r ≠ 0 then (1 : ℕ) else 0).sum = binary.sum := by
      rw [hbin, List.map_map]
      congr 1
      refine List.map_congr_left fun a _ => ?_
      by_cases ha : a ∈ relevant <;> simp [ha]
    have hdcg_nonneg : 0 ≤ dcgAux 0 binary := dcgAux_nonneg binary 0
    have hidcg_nonneg : (0 : ℝ) ≤
        ∑ i ∈ Finset.range (min relevant.card k.toNat), logWeight i :=
      Finset.sum_nonneg fun i _ => (logWeight_pos i).le
    have hdcg_le : dcgAux 0 binary ≤
        ∑ i ∈ Finset.range (min relevant.card k.toNat), logWeight i := by
      have h1 := dcgAux_le_sum binary 0
      rw [hnz] at h1
      have h2 : (∑ j ∈ Finset.range binary.sum, logWeight (0 + j)) =
          ∑ j ∈ Finset.range binary.sum, logWeight j := by
        refine Finset.sum_congr rfl fun j _ => ?_
        norm_num
      rw [h2] at h1
      refine h1.trans (Finset.sum_le_sum_of_subset_of_nonneg ?_ ?_)
      · refine Finset.range_subset.mpr (le_min ?_ ?_)
        · exact hsum_card
        · exact hsum_len.trans hlen
      · exact fun i _ _ => (logWeight_pos i).le
    constructor
    · split
      · next hpos => exact div_nonneg hdcg_nonneg (le_of_lt hpos)
      · exact le_refl 0
    · split
      · next hpos => exact (div_le_one hpos).mpr hdcg_le
      · exact zero_le_one

/-- Witness for C4 at a concrete input. -/
theorem score_retrieval_bounds_witness :
    (0 ≤ (metricsOf (score_retrieval ["a"] ["b"] 1)).ndcg_at_k ∧
      (metricsOf (score_retrieval ["a"] ["b"] 1)).ndcg_at_k ≤ 1) := by
  rcases hx : score_retrieval ["a"] ["b"] 1 with e | m
  · exfalso
    unfold score_retrieval at hx
    rw [if_neg (by decide)] at hx
    dsimp only at hx
    rw [if_neg (by decide)] at hx
    cases hx
  · have hb := score_retrieval_bounds ["a"] ["b"] 1 m hx
    exact hb.2.2.2.2

/-- Claim C10: `score_retrieval` raises `ValueError` exactly when `k ≤ 0`,
independently of the contents of either id list, and returns a metrics
value whenever `k > 0`. -/
theorem score_retrieval_k_guard (retrieved_ids relevant_ids : List String) (k : ℤ) :
    (k ≤ 0 → score_retrieval retrieved_ids relevant_ids k =
      .error (.valueError "k must be > 0")) ∧
    (0 < k → ∃ m, score_retrieval retrieved_ids relevant_ids k = .ok m) := by
  constructor
  · intro h
    unfold score_retrieval
    rw [if_pos h]
  · intro h
    unfold score_retrieval
    rw [if_neg (by omega)]
    dsimp only
    split
    · exact ⟨_, rfl⟩
    · exact ⟨_, rfl⟩

/-- Witness for C10 at concrete inputs: `k = 0` raises, `k = 2` returns. -/
theorem score_retrieval_k_guard_witness :
    score_retrieval ["x"] ["x"] 0 = .error (.valueError "k must be > 0") ∧
    (score_retrieval ["x"] ["x"] 2).isOk = true := by
  refine ⟨(score_retrieval_k_guard ["x"] ["x"] 0).1 (by decide), ?_⟩
  obtain ⟨m, hm⟩ := (score_retrieval_k_guard ["x"] ["x"] 2).2 (by decide)
  rw [hm]
  rfl

/-- If position `j` of `m` holds `a` and `s'` is a sublist of what follows
position `j`, then `a :: s'` is a sublist of `m`. -/
theorem cons_sublist_of_get {α : Type} :
    ∀ (j : ℕ) (m : List α) (a : α) (s' : List α),
      m.get? j = some a → List.Sublist s' (m.drop (j + 1)) → List.Sublist (a :: s') m
  | 0, m, a, s', h, hs => by
      cases m with
      | nil => cases h
      | cons b t =>
          simp only [List.get?_cons_zero, Option.some.injEq] at h
          subst h
          exact List.Sublist.cons₂ b hs
  | j + 1, m, a, s', h, hs => by
      cases m with
      | nil => cases h
      | cons b t =>
          simp only [List.get?_cons_succ] at h
          have := cons_sublist_of_get j t a s' h (by simpa using hs)
          exact this.cons b

/-- Reading strictly increasing positions off a list yields an in-order
sublist (stated with a lower bound `k` on all positions for the
induction). -/
theorem pyGetEach_sublist {α : Type} :
    ∀ (is : List ℕ) (l : List α) (k : ℕ) (sel : List α),
      is.Pairwise (· < ·) → (∀ i ∈ is, k ≤ i) →
      pyGetEach l is = .ok sel → List.Sublist sel (l.drop k)
  | [], l, k, sel, _, _, h => by
      simp only [pyGetEach] at h
      cases h
      exact List.nil_sublist _
  | i :: rest, l, k, sel, hpair, hge, h => by
      rw [pyGetEach] at h
      cases hidx : pyIndex l i with
      | error e => rw [hidx] at h; cases h
      | ok a =>
          rw [hidx] at h
          cases hrest : pyGetEach l rest with
          | error e => rw [hrest] at h; cases h
          | ok as =>
              rw [hrest] at h
              cases h
              have hpair' := (List.pairwise_cons.mp hpair).2
              have hgt := (List.pairwise_cons.mp hpair).1
              have hsub : List.Sublist as (l.drop (i + 1)) :=
                pyGetEach_sublist rest l (i + 1) as hpair'
                  (fun x hx => hgt x hx) hrest
              have hget : l.get? i = some a := by
                unfold pyIndex at hidx
                cases hl : l.get? i with
                | none => rw [hl] at hidx; cases hidx
                | some b => rw [hl] at hidx; cases hidx; rfl
              have hki := hge i (List.mem_cons_self _ _)
              have hget' : (l.drop k).get? (i - k) = some a := by
                rw [List.get?_eq_getElem?, List.getElem?_drop,
                  Nat.add_sub_cancel' hki, ← List.get?_eq_getElem?]
                exact hget
              have hsub' : List.Sublist as ((l.drop k).drop ((i - k) + 1)) := by
                rw [List.drop_drop]
                have h3 : k + (i - k + 1) = i + 1 := by omega
                rw [h3]
                exact hsub
              exact cons_sublist_of_get (i - k) (l.drop k) a as hget' hsub'

/-- Claim C1: question selection is deterministic and independent of
`run_id`.  For any sampler modelling the freshly seeded
`random.Random(seed).sample` (a pure function of its arguments; its draws
contain no duplicate index), the selection step performed inside the runner
(i) yields the same list under any two `run_id`s for the same
`(questions, limit, sample_size, sample_seed)`, (ii) defaults the seed to 0
when `sample_seed` is not given, and (iii) returns, when it does not raise,
an in-order sublist of the dataset's question list (the sampled indices are
sorted, preserving dataset order). -/
theorem selection_deterministic {α : Type} (sample : ℤ → ℕ → ℕ → List ℕ)
    (questions : List α) (limit sample_size sample_seed : Option ℤ)
    (rid1 rid2 : String)
    (hsample : ∀ seed n k, (sample seed n k).Nodup) :
    (selectionStep rid1 sample questions limit sample_size sample_seed =
       selectionStep rid2 sample questions limit sample_size sample_seed) ∧
    (selectionStep rid1 sample questions limit sample_size none =
       selectionStep rid1 sample questions limit sample_size (some 0)) ∧
    (∀ sel,
       selectionStep rid1 sample questions limit sample_size sample_seed = .ok sel →
       List.Sublist sel questions) := by
  refine ⟨rfl, rfl, ?_⟩
  intro sel h
  unfold selectionStep _select_questions at h
  dsimp only at h
  have hstage : ∀ mid : List α,
      (match limit with
        | none => (.ok mid : Except PyExc (List α))
        | some l =>
            if l < 0 then .error (.valueError "limit must be >= 0")
            else .ok (mid.take l.toNat)) = .ok sel → List.Sublist sel mid := by
    intro mid hm
    cases limit with
    | none => cases hm; exact List.Sublist.refl _
    | some l =>
        dsimp only at hm
        by_cases hl : l < 0
        · rw [if_pos hl] at hm; cases hm
        · rw [if_neg hl] at hm
          cases hm
          exact List.take_sublist _ _
  cases sample_size with
  | none => exact hstage questions h
  | some sz =>
      dsimp only at h
      by_cases h1 : sz ≤ 0
      · rw [if_pos h1] at h; cases h
      rw [if_neg h1] at h
      by_cases h2 : (questions.length : ℤ) < sz
      · rw [if_pos h2] at h; cases h
      rw [if_neg h2] at h
      cases hpg : pyGetEach questions
          ((sample (sample_seed.getD 0) questions.length sz.toNat).mergeSort) with
      | error e => rw [hpg] at h; cases h
      | ok sel0 =>
          rw [hpg] at h
          have hsorted : ((sample (sample_seed.getD 0) questions.length
              sz.toNat).mergeSort).Sorted (· ≤ ·) :=
            List.sorted_mergeSort' _
          have hnodup : ((sample (sample_seed.getD 0) questions.length
              sz.toNat).mergeSort).Nodup :=
            (List.mergeSort_perm _ _).nodup_iff.mpr (hsample _ _ _)
          have hlt := hsorted.lt_of_le hnodup
          have hsub : List.Sublist sel0 (questions.drop 0) :=
            pyGetEach_sublist _ questions 0 sel0 hlt (fun _ _ => Nat.zero_le _) hpg
          rw [List.drop_zero] at hsub
          exact (hstage sel0 h).trans hsub

/-- Witness for C1 at concrete inputs: a three-element dataset, a sampler
drawing indices `[0, 2]`, sample size 2, under two different run ids. -/
theorem selection_deterministic_witness :
    (selectionStep "run-a" (fun _ _ _ => [0, 2]) [10, 20, 30] none (some 2) (some 7) =
      selectionStep "run-b" (fun _ _ _ => [0, 2]) [10, 20, 30] none (some 2) (some 7)) ∧
    (selectionStep "run-a" (fun _ _ _ => [0, 2]) [10, 20, 30] none (some 2) none =
      selectionStep "run-a" (fun _ _ _ => [0, 2]) [10, 20, 30] none (some 2) (some 0)) ∧
    List.Sublist ([10, 30] : List ℕ) [10, 20, 30] := by
  have hnd : ([0, 2] : List ℕ).Nodup := by decide
  have h := selection_deterministic (fun _ _ _ => [0, 2]) [10, 20, 30]
    none (some 2) (some 7) "run-a" "run-b" (fun _ _ _ => hnd)
  refine ⟨h.1, (selection_deterministic (fun _ _ _ => [0, 2]) [10, 20, 30]
    none (some 2) (some 7) "run-a" "run-a" (fun _ _ _ => hnd)).2.1, ?_⟩
  refine h.2.2 [10, 30] ?_
  have hm : ([0, 2] : List ℕ).mergeSort = [0, 2] :=
    List.mergeSort_eq_self (by decide)
  unfold selectionStep _select_questions
  dsimp only
  rw [hm]
  rfl

/-- Claim C7: in non-pre-index mode the runner always attempts the cleanup
`adapter.clear(container_tag)` after a question's phases, and the cleanup
call's outcome is discarded: the iteration records exactly the try-body's
result row and failure record (a cleanup exception is never recorded as a
question failure), and the loop proceeds to the remaining questions
whenever the body did not fail (a cleanup exception never escalates and
never aborts the run). -/
theorem cleanup_swallowed {σ ρ : Type} (ad : Adapter σ ρ) (st : σ)
    (q : RetrievalQuestion) (rest : List RetrievalQuestion)
    (run_id : String) (top_k : ℤ) (skip_ingest fail_fast : Bool)
    (preindex_tag : String) (preindex_result : Option ρ) (fails : List Failure)
    (hnew : (fails.any fun f => f.question_id = q.question_id) = false) :
    (questionStep ad st q top_k skip_ingest false preindex_tag preindex_result
        (run_id ++ ":" ++ q.question_id)).events =
      (questionBody ad st q top_k skip_ingest false preindex_tag preindex_result
        (run_id ++ ":" ++ q.question_id)).events ++
        [.clear (run_id ++ ":" ++ q.question_id)] ∧
    (questionStep ad st q top_k skip_ingest false preindex_tag preindex_result
        (run_id ++ ":" ++ q.question_id)).fail? =
      (questionBody ad st q top_k skip_ingest false preindex_tag preindex_result
        (run_id ++ ":" ++ q.question_id)).fail? ∧
    (questionStep ad st q top_k skip_ingest false preindex_tag preindex_result
        (run_id ++ ":" ++ q.question_id)).row? =
      (questionBody ad st q top_k skip_ingest false preindex_tag preindex_result
        (run_id ++ ":" ++ q.question_id)).row? ∧
    ((questionStep ad st q top_k skip_ingest false preindex_tag preindex_result
        (run_id ++ ":" ++ q.question_id)).fail? = none →
      runLoop ad run_id top_k skip_ingest false fail_fast preindex_tag
          preindex_result (q :: rest) st fails =
        (let out := questionStep ad st q top_k skip_ingest false preindex_tag
           preindex_result (run_id ++ ":" ++ q.question_id)
         let r := runLoop ad run_id top_k skip_ingest false fail_fast preindex_tag
           preindex_result rest out.st (fails ++ out.fail?.toList)
         (r.1, out.events ++ r.2.1, out.row?.toList ++ r.2.2.1, r.2.2.2))) := by
  refine ⟨rfl, rfl, rfl, ?_⟩
  intro hnone
  rw [runLoop]
  dsimp only
  rw [if_neg (by simp [hnew]), if_neg (by simp [hnone])]
  rfl

/-- Witness for C7: a concrete two-call adapter whose first `clear` (the
per-question isolation clear) succeeds and whose second `clear` (the
cleanup) raises; the iteration still succeeds, records no failure, and the
cleanup clear is its last event. -/
theorem cleanup_swallowed_witness :
    ((questionStep
        (⟨fun n => (.ok (), n), fun _ _ n => ((.ok 0 : Except PyExc ℕ), n),
          fun _ _ n => (.ok (), n), fun _ _ _ n => (.ok [], n),
          fun _ n => (if n = 0 then .ok () else .error (.runtimeError "cleanup boom"), n + 1)⟩ :
            Adapter ℕ ℕ)
        0 ⟨"q1", "where?", "taipei", "fact", [⟨"s1", [⟨"user", "hi", .null⟩], []⟩], ["s1"]⟩
        5 false false "run-w:GLOBAL" none ("run-w" ++ ":" ++ "q1")).fail? = none) ∧
    ((questionStep
        (⟨fun n => (.ok (), n), fun _ _ n => ((.ok 0 : Except PyExc ℕ), n),
          fun _ _ n => (.ok (), n), fun _ _ _ n => (.ok [], n),
          fun _ n => (if n = 0 then .ok () else .error (.runtimeError "cleanup boom"), n + 1)⟩ :
            Adapter ℕ ℕ)
        0 ⟨"q1", "where?", "taipei", "fact", [⟨"s1", [⟨"user", "hi", .null⟩], []⟩], ["s1"]⟩
        5 false false "run-w:GLOBAL" none ("run-w" ++ ":" ++ "q1")).events =
      (questionBody
        (⟨fun n => (.ok (), n), fun _ _ n => ((.ok 0 : Except PyExc ℕ), n),
          fun _ _ n => (.ok (), n), fun _ _ _ n => (.ok [], n),
          fun _ n => (if n = 0 then .ok () else .error (.runtimeError "cleanup boom"), n + 1)⟩ :
            Adapter ℕ ℕ)
        0 ⟨"q1", "where?", "taipei", "fact", [⟨"s1", [⟨"user", "hi", .null⟩], []⟩], ["s1"]⟩
        5 false false "run-w:GLOBAL" none ("run-w" ++ ":" ++ "q1")).events ++
        [.clear ("run-w" ++ ":" ++ "q1")]) := by
  have h := cleanup_swallowed
    (⟨fun n => (.ok (), n), fun _ _ n => ((.ok 0 : Except PyExc ℕ), n),
      fun _ _ n => (.ok (), n), fun _ _ _ n => (.ok [], n),
      fun _ n => (if n = 0 then .ok () else .error (.runtimeError "cleanup boom"), n + 1)⟩ :
        Adapter ℕ ℕ)
    0 ⟨"q1", "where?", "taipei", "fact", [⟨"s1", [⟨"user", "hi", .null⟩], []⟩], ["s1"]⟩
    [] "run-w" 5 false false "run-w:GLOBAL" none [] rfl
  refine ⟨?_, h.1⟩
  rw [h.2.1]
  rfl

/-- A report returned by `runFinish` carries the failure breakdown of its
own failures list and the run's configuration flags. -/
theorem runFinish_ok {σ ρ : Type} (ad : Adapter σ ρ)
    (provider dataset_name : String) (top_k : ℤ) (run_id : String)
    (fail_fast : Bool) (sample_size sample_seed : Option ℤ)
    (skip_ingest preindex_once : Bool) (preindex_tag : String)
    (questions : List RetrievalQuestion) (stP : σ) (evsP : List AdapterEvent)
    (fails0 : List Failure) (pres : Option ρ) (r : Report ρ)
    (h : (runFinish ad provider dataset_name top_k run_id fail_fast sample_size
        sample_seed skip_ingest preindex_once preindex_tag questions stP evsP
        fails0 pres).2 = .ok r) :
    r.failure_breakdown = _failure_breakdown r.failures ∧
    r.config_preindex_once = preindex_once ∧
    r.config_skip_ingest = skip_ingest := by
  unfold runFinish at h
  dsimp only at h
  split at h
  · cases h
    exact ⟨rfl, rfl, rfl⟩
  · cases h

/-- The events returned by `runFinish`: the `initialize` call, the pre-index
block's events, the loop's events, and the final pre-index cleanup. -/
theorem runFinish_events {σ ρ : Type} (ad : Adapter σ ρ)
    (provider dataset_name : String) (top_k : ℤ) (run_id : String)
    (fail_fast : Bool) (sample_size sample_seed : Option ℤ)
    (skip_ingest preindex_once : Bool) (preindex_tag : String)
    (questions : List RetrievalQuestion) (stP : σ) (evsP : List AdapterEvent)
    (fails0 : List Failure) (pres : Option ρ) :
    (runFinish ad provider dataset_name top_k run_id fail_fast sample_size
        sample_seed skip_ingest preindex_once preindex_tag questions stP evsP
        fails0 pres).1 =
      .init :: (evsP ++
        (runLoop ad run_id top_k skip_ingest preindex_once fail_fast preindex_tag
          pres questions stP fails0).2.1 ++
        (if preindex_once then [.clear preindex_tag] else [])) := by
  unfold runFinish
  dsimp only
  split <;> rfl

/-- A loop over questions that are all already marked failed does nothing:
no provider calls, no result rows, unchanged failures. -/
theorem runLoop_all_premarked {σ ρ : Type} (ad : Adapter σ ρ) (run_id : String)
    (top_k : ℤ) (si po ff : Bool) (ptag : String) (pres : Option ρ) :
    ∀ (qs : List RetrievalQuestion) (st : σ) (fails : List Failure),
      (∀ q ∈ qs, (fails.any fun f => f.question_id = q.question_id) = true) →
      runLoop ad run_id top_k si po ff ptag pres qs st fails = (st, [], [], fails)
  | [], st, fails, _ => by rw [runLoop]
  | q :: rest, st, fails, hall => by
      rw [runLoop]
      dsimp only
      rw [if_pos (hall q (List.mem_cons_self _ _))]
      cases ff with
      | true => rfl
      | false =>
          exact runLoop_all_premarked ad run_id top_k si po false ptag pres rest st
            fails fun q' hq' => hall q' (List.mem_cons_of_mem _ hq')

/-- Every selected question is covered by the pre-marked failure list. -/
theorem premark_covers (questions : List RetrievalQuestion) (e : PyExc) :
    ∀ q ∈ questions,
      ((premarkFailures questions e).any fun f => f.question_id = q.question_id) = true := by
  intro q hq
  rw [List.any_eq_true]
  exact ⟨⟨q.question_id, _classify_failure e "preindex"⟩,
    List.mem_map_of_mem _ hq, by simp⟩

/-- Every pre-marked failure has phase `"preindex"`. -/
theorem premark_phase (questions : List RetrievalQuestion) (e : PyExc) :
    ∀ f ∈ premarkFailures questions e, f.info.phase = "preindex" := by
  intro f hf
  rcases List.mem_map.mp hf with ⟨q, _, rfl⟩
  cases e <;> first
    | rfl
    | (show (_classify_failure _ "preindex").phase = _
       unfold _classify_failure
       dsimp only
       split <;> rfl)

/-- In pre-index mode one question iteration makes exactly one provider
call: the search. -/
theorem questionStep_preindex_events {σ ρ : Type} (ad : Adapter σ ρ) (st : σ)
    (q : RetrievalQuestion) (top_k : ℤ) (si : Bool) (ptag : String)
    (pres : Option ρ) (tag : String) :
    (questionStep ad st q top_k si true ptag pres tag).events =
      [.search q.question tag top_k] := by
  unfold questionStep questionBody
  dsimp only
  rcases ad.search q.question tag top_k st with ⟨e | hits, st2⟩
  · rfl
  · dsimp only
    generalize score_retrieval
        (List.filter (fun x => decide (x ≠ ""))
          (List.map (fun h => dictGetD h.metadata "session_id" "") hits))
        q.relevant_session_ids top_k = sc
    cases sc <;> rfl

/-- In pre-index mode the loop never calls `ingest`. -/
theorem runLoop_preindex_no_ingest {σ ρ : Type} (ad : Adapter σ ρ)
    (run_id : String) (top_k : ℤ) (si ff : Bool) (ptag : String)
    (pres : Option ρ) :
    ∀ (qs : List RetrievalQuestion) (st : σ) (fails : List Failure),
      ((runLoop ad run_id top_k si true ff ptag pres qs st fails).2.1.countP
        AdapterEvent.isIngest) = 0
  | [], st, fails => by rw [runLoop]; rfl
  | q :: rest, st, fails => by
      rw [runLoop]
      dsimp only
      have htag : (if true = true then ptag else run_id ++ ":" ++ q.question_id) = ptag :=
        if_pos rfl
      rw [htag]
      split
      · split
        · rfl
        · exact runLoop_preindex_no_ingest ad run_id top_k si ff ptag pres rest st fails
      · have hstep := questionStep_preindex_events ad st q top_k si ptag pres ptag
        by_cases hff :
            (ff && (questionStep ad st q top_k si true ptag pres ptag).fail?.isSome) = true
        · rw [if_pos hff]
          dsimp only
          rw [hstep]
          rfl
        · rw [if_neg hff]
          dsimp only
          rw [hstep, List.countP_append,
            runLoop_preindex_no_ingest ad run_id top_k si ff ptag pres rest _ _]
          rfl

/-- A report returned by `run_retrieval_benchmark` carries the failure
breakdown of its own failures list and the run's configuration flags. -/
theorem run_ok_shape {σ ρ : Type} (ad : Adapter σ ρ) (st0 : σ)
    (sample : ℤ → ℕ → ℕ → List ℕ) (provider : String)
    (dataset : RetrievalDataset) (top_k : ℤ) (run_id : String)
    (fail_fast : Bool) (limit sample_size sample_seed : Option ℤ)
    (skip_ingest preindex_once : Bool) (r : Report ρ)
    (h : (run_retrieval_benchmark ad st0 sample provider dataset top_k run_id
        fail_fast limit sample_size sample_seed skip_ingest preindex_once).2 = .ok r) :
    r.failure_breakdown = _failure_breakdown r.failures ∧
    r.config_preindex_once = preindex_once ∧
    r.config_skip_ingest = skip_ingest := by
  unfold run_retrieval_benchmark at h
  rcases hinit : ad.init st0 with ⟨r0, st1⟩
  rw [hinit] at h
  cases r0 with
  | error e => cases h
  | ok u =>
    cases hsel : selectionStep run_id sample dataset.questions limit sample_size
        sample_seed with
    | error e => rw [hsel] at h; cases h
    | ok questions =>
      rw [hsel] at h
      dsimp only at h
      by_cases hpo : (preindex_once && !skip_ingest) = true
      · rw [if_pos hpo] at h
        rcases hclear : ad.clear (run_id ++ ":GLOBAL") st1 with ⟨rc, st2⟩
        rw [hclear] at h
        cases rc with
        | error e => exact runFinish_ok _ _ _ _ _ _ _ _ _ _ _ _ _ _ _ _ _ h
        | ok _ =>
          dsimp only at h
          rcases hing : ad.ingest (_unique_sessions questions) (run_id ++ ":GLOBAL")
              st2 with ⟨ri, st3⟩
          rw [hing] at h
          cases ri with
          | error e => exact runFinish_ok _ _ _ _ _ _ _ _ _ _ _ _ _ _ _ _ _ h
          | ok ingv =>
            dsimp only at h
            rcases haw : ad.awaitIndexing ingv (run_id ++ ":GLOBAL") st3 with ⟨ra, st4⟩
            rw [haw] at h
            cases ra with
            | error e => exact runFinish_ok _ _ _ _ _ _ _ _ _ _ _ _ _ _ _ _ _ h
            | ok _ => exact runFinish_ok _ _ _ _ _ _ _ _ _ _ _ _ _ _ _ _ _ h
      · rw [if_neg hpo] at h
        exact runFinish_ok _ _ _ _ _ _ _ _ _ _ _ _ _ _ _ _ _ h

/-- Claim C5: a search-phase `TimeoutExpired` yields a failure record with
phase "search", error_code "TIMEOUT", error_category "timeout" and
retryable true (first conjunct, for any adapter whose earlier phases
succeeded); on the concrete one-question timeout run the report's
`failure_breakdown.by_code` is exactly `{"TIMEOUT": 1}` (second conjunct);
and a run whose questions all succeed — empty failures — has all three
breakdown maps empty (third conjunct). -/
theorem timeout_failure_classified :
    (∀ {σ ρ : Type} (ad : Adapter σ ρ) (st st1 st2 st3 st4 : σ)
       (q : RetrievalQuestion) (top_k : ℤ) (ptag tag : String) (pres : Option ρ)
       (msg : String) (ing : ρ),
       ad.clear tag st = (.ok (), st1) →
       ad.ingest q.sessions tag st1 = (.ok ing, st2) →
       ad.awaitIndexing ing tag st2 = (.ok (), st3) →
       ad.search q.question tag top_k st3 = (.error (.timeoutExpired msg), st4) →
       (questionBody ad st q top_k false false ptag pres tag).fail? =
         some ⟨q.question_id, "search", "TIMEOUT", "timeout", true,
               "TimeoutExpired", msg⟩) ∧
    (((run_retrieval_benchmark timeoutAdapter () noSample "fake" miniDataset 5
        "run-timeout" false none none none false false).2.map fun r => r.failures) =
      .ok [⟨"q1", "search", "TIMEOUT", "timeout", true, "TimeoutExpired",
            "Command fake-cmd timed out after 5 seconds"⟩] ∧
     ((run_retrieval_benchmark timeoutAdapter () noSample "fake" miniDataset 5
        "run-timeout" false none none none false false).2.map
          fun r => r.failure_breakdown.by_code) = .ok [("TIMEOUT", 1)]) ∧
    (∀ {σ ρ : Type} (ad : Adapter σ ρ) (st0 : σ) (sample : ℤ → ℕ → ℕ → List ℕ)
       (provider : String) (dataset : RetrievalDataset) (top_k : ℤ)
       (run_id : String) (fail_fast : Bool) (limit sample_size sample_seed : Option ℤ)
       (skip_ingest preindex_once : Bool) (r : Report ρ),
       (run_retrieval_benchmark ad st0 sample provider dataset top_k run_id
         fail_fast limit sample_size sample_seed skip_ingest preindex_once).2 = .ok r →
       r.failures = [] →
       r.failure_breakdown = ⟨[], [], []⟩) := by
  refine ⟨?_, ⟨rfl, rfl⟩, ?_⟩
  · intro σ ρ ad st st1 st2 st3 st4 q top_k ptag tag pres msg ing
      hclear hing haw hsearch
    unfold questionBody
    dsimp only
    rw [if_neg Bool.false_ne_true, hclear]
    dsimp only
    rw [if_neg Bool.false_ne_true, hing]
    dsimp only
    rw [haw]
    dsimp only
    rw [hsearch]
    rfl
  · intro σ ρ ad st0 sample provider dataset top_k run_id ff limit ssz ssd si po r
      h hfails
    have hshape := run_ok_shape ad st0 sample provider dataset top_k run_id ff
      limit ssz ssd si po r h
    rw [hshape.1, hfails]
    rfl

/-- Witness for C5: the timeout classification at the concrete timeout
adapter, and the empty breakdown on the concrete all-success run. -/
theorem timeout_failure_classified_witness :
    (questionBody timeoutAdapter () miniQuestion 5 false false "run-w:GLOBAL" none
        "run-w:q1").fail? =
      some ⟨"q1", "search", "TIMEOUT", "timeout", true, "TimeoutExpired",
            "Command fake-cmd timed out after 5 seconds"⟩ ∧
    ((run_retrieval_benchmark successAdapter () noSample "fake" miniDataset 5
        "run-ok" false none none none false false).2.map
          fun r => r.failure_breakdown) = .ok ⟨[], [], []⟩ := by
  constructor
  · exact timeout_failure_classified.1 timeoutAdapter () () () () ()
      miniQuestion 5 "run-w:GLOBAL" "run-w:q1" none
      "Command fake-cmd timed out after 5 seconds" () rfl rfl rfl rfl
  · have h1 : ((run_retrieval_benchmark successAdapter () noSample "fake" miniDataset 5
        "run-ok" false none none none false false).2.map fun r => r.failures) =
        .ok ([] : List Failure) := rfl
    cases hx : (run_retrieval_benchmark successAdapter () noSample "fake" miniDataset 5
        "run-ok" false none none none false false).2 with
    | error e => rw [hx] at h1; cases h1
    | ok r =>
        rw [hx] at h1
        injection h1 with h2
        have h3 := timeout_failure_classified.2.2 successAdapter () noSample "fake"
          miniDataset 5 "run-ok" false none none none false false r hx h2
        show Except.ok r.failure_breakdown = _
        rw [h3]

/-- Counterexample to claim C6 as stated: a run with `preindex_once=True`
but `skip_ingest=True` never calls the adapter's ingest (the pre-index
block is guarded by `preindex_once and not skip_ingest`), so "calls ingest
exactly once" fails for this run. -/
theorem preindex_once_counterexample :
    ((run_retrieval_benchmark successAdapter () noSample "fake" miniDataset 5
        "run-pre" false none none none true true).1.countP
      AdapterEvent.isIngest) = 0 ∧
    ¬ ((run_retrieval_benchmark successAdapter () noSample "fake" miniDataset 5
        "run-pre" false none none none true true).1.countP
      AdapterEvent.isIngest) = 1 := by
  have h : ((run_retrieval_benchmark successAdapter () noSample "fake" miniDataset 5
      "run-pre" false none none none true true).1.countP AdapterEvent.isIngest) = 0 := rfl
  exact ⟨h, by rw [h]; decide⟩

/-- Claim C6 (amended: `skip_ingest=False`, and the run reaches the
pre-index block — `initialize`, question selection and the initial global
clear succeed): the run calls ingest exactly once regardless of the number
of selected questions, on the session-id-deduplicated union of the selected
questions' sessions under the run-scoped tag `"{run_id}:GLOBAL"`; the
returned report's `config.preindex_once` is true; and when the pre-index
step raises, every selected question is pre-marked failed with phase
"preindex" and the loop makes no provider call at all for them. -/
theorem preindex_single_ingest {σ ρ : Type} (ad : Adapter σ ρ) (st0 st1 st2 : σ)
    (sample : ℤ → ℕ → ℕ → List ℕ) (provider : String)
    (dataset : RetrievalDataset) (top_k : ℤ) (run_id : String)
    (fail_fast : Bool) (limit sample_size sample_seed : Option ℤ)
    (questions : List RetrievalQuestion)
    (hinit : ad.init st0 = (.ok (), st1))
    (hsel : selectionStep run_id sample dataset.questions limit sample_size
      sample_seed = .ok questions)
    (hclear : ad.clear (run_id ++ ":GLOBAL") st1 = (.ok (), st2)) :
    ((run_retrieval_benchmark ad st0 sample provider dataset top_k run_id
        fail_fast limit sample_size sample_seed false true).1.countP
      AdapterEvent.isIngest) = 1 ∧
    AdapterEvent.ingest (_unique_sessions questions) (run_id ++ ":GLOBAL") ∈
      (run_retrieval_benchmark ad st0 sample provider dataset top_k run_id
        fail_fast limit sample_size sample_seed false true).1 ∧
    (∀ r : Report ρ,
      (run_retrieval_benchmark ad st0 sample provider dataset top_k run_id
        fail_fast limit sample_size sample_seed false true).2 = .ok r →
      r.config_preindex_once = true) ∧
    (∀ (e : PyExc) (st' : σ) (pres : Option ρ),
      runLoop ad run_id top_k false true fail_fast (run_id ++ ":GLOBAL") pres
          questions st' (premarkFailures questions e) =
        (st', [], [], premarkFailures questions e)) ∧
    (∀ (e : PyExc), ∀ f ∈ premarkFailures questions e, f.info.phase = "preindex") := by
  have hloopmark : ∀ (e : PyExc) (st' : σ) (pres : Option ρ),
      runLoop ad run_id top_k false true fail_fast (run_id ++ ":GLOBAL") pres
          questions st' (premarkFailures questions e) =
        (st', [], [], premarkFailures questions e) := by
    intro e st' pres
    exact runLoop_all_premarked ad run_id top_k false true fail_fast _ pres
      questions st' _ (premark_covers questions e)
  have hcfg : ∀ r : Report ρ,
      (run_retrieval_benchmark ad st0 sample provider dataset top_k run_id
        fail_fast limit sample_size sample_seed false true).2 = .ok r →
      r.config_preindex_once = true := by
    intro r hr
    exact (run_ok_shape ad st0 sample provider dataset top_k run_id fail_fast
      limit sample_size sample_seed false true r hr).2.1
  refine ⟨?_, ?_, hcfg, hloopmark, fun e => premark_phase questions e⟩ <;>
  · unfold run_retrieval_benchmark
    rw [hinit]
    dsimp only
    rw [hsel]
    dsimp only
    rw [if_pos (by decide : (true && !false) = true), hclear]
    dsimp only
    rcases hing : ad.ingest (_unique_sessions questions) (run_id ++ ":GLOBAL")
        st2 with ⟨ri, st3⟩
    cases ri with
    | error e =>
        dsimp only
        rw [runFinish_events, hloopmark e st3 none]
        simp [List.countP_cons, List.countP_append, AdapterEvent.isIngest]
    | ok ingv =>
        dsimp only
        rcases haw : ad.awaitIndexing ingv (run_id ++ ":GLOBAL") st3 with ⟨ra, st4⟩
        cases ra with
        | error e =>
            dsimp only
            rw [runFinish_events, hloopmark e st4 (some ingv)]
            simp [List.countP_cons, List.countP_append, AdapterEvent.isIngest]
        | ok _ =>
            dsimp only
            rw [runFinish_events]
            have hz := runLoop_preindex_no_ingest ad run_id top_k false fail_fast
              (run_id ++ ":GLOBAL") (some ingv) questions st4 []
            simp only [List.countP_cons, List.countP_append, hz]
            simp [AdapterEvent.isIngest]

/-- Witness for C6 (amended) at a concrete pre-index run. -/
theorem preindex_single_ingest_witness :
    ((run_retrieval_benchmark successAdapter () noSample "fake" miniDataset 5
        "run-pre" false none none none false true).1.countP
      AdapterEvent.isIngest) = 1 ∧
    AdapterEvent.ingest (_unique_sessions [miniQuestion]) ("run-pre" ++ ":GLOBAL") ∈
      (run_retrieval_benchmark successAdapter () noSample "fake" miniDataset 5
        "run-pre" false none none none false true).1 ∧
    (∀ f ∈ premarkFailures [miniQuestion] (.timeoutExpired "boom"),
      f.info.phase = "preindex") := by
  have h := preindex_single_ingest successAdapter () () () noSample "fake"
    miniDataset 5 "run-pre" false none none none [miniQuestion] rfl rfl rfl
  exact ⟨h.1, h.2.1, h.2.2.2.2 (.timeoutExpired "boom")⟩

/-- Counterexample to claim C8 as stated: with `sample_size` exceeding the
question count the run does raise the validation `ValueError`, but the
adapter's `initialize` has already been invoked — the event trace at the
moment of the raise is `[init]`, not empty, contradicting "no adapter
operation (including initialize) is invoked before the error is raised". -/
theorem sample_size_validation_counterexample :
    (run_retrieval_benchmark successAdapter () noSample "fake" miniDataset2 5
        "run-bad-sample" false none (some 3) (some 1) false false :
      List AdapterEvent × Except PyExc (Report Unit)) =
      ([.init], .error (.valueError "sample_size=3 exceeds available questions=2")) ∧
    ([AdapterEvent.init] : List AdapterEvent) ≠ [] := by
  constructor
  · rfl
  · simp

/-- Claim C8 (amended): an invalid `sample_size` (zero/negative or larger
than the question count) or a negative `limit` makes the selection step
raise `ValueError`, and the run re-raises it before any `clear`, `ingest`,
`await_indexing` or `search` call — the only provider call already made is
`initialize`, which the source invokes before selection. -/
theorem validation_error_before_provider_calls :
    (∀ {σ ρ : Type} (ad : Adapter σ ρ) (st0 st1 : σ)
       (sample : ℤ → ℕ → ℕ → List ℕ) (provider : String)
       (dataset : RetrievalDataset) (top_k : ℤ) (run_id : String)
       (fail_fast : Bool) (limit sample_size sample_seed : Option ℤ)
       (skip_ingest preindex_once : Bool) (e : PyExc),
       ad.init st0 = (.ok (), st1) →
       selectionStep run_id sample dataset.questions limit sample_size sample_seed =
         .error e →
       run_retrieval_benchmark ad st0 sample provider dataset top_k run_id
         fail_fast limit sample_size sample_seed skip_ingest preindex_once =
         ([.init], .error e)) ∧
    (∀ {α : Type} (sample : ℤ → ℕ → ℕ → List ℕ) (questions : List α)
       (limit sample_seed : Option ℤ) (sz : ℤ),
       (sz ≤ 0 ∨ (questions.length : ℤ) < sz) →
       ∃ m, _select_questions sample questions limit (some sz) sample_seed =
         .error (.valueError m)) ∧
    (∀ {α : Type} (sample : ℤ → ℕ → ℕ → List ℕ) (questions : List α)
       (sample_seed : Option ℤ) (l : ℤ),
       l < 0 →
       _select_questions sample questions (some l) none sample_seed =
         .error (.valueError "limit must be >= 0")) := by
  refine ⟨?_, ?_, ?_⟩
  · intro σ ρ ad st0 st1 sample provider dataset top_k run_id ff limit ssz ssd
      si po e hinit hsel
    unfold run_retrieval_benchmark
    rw [hinit]
    dsimp only
    rw [hsel]
  · intro α sample questions limit sample_seed sz hbad
    by_cases hz : sz ≤ 0
    · refine ⟨"sample_size must be > 0", ?_⟩
      unfold _select_questions
      dsimp only
      rw [if_pos hz]
    · have hlen : (questions.length : ℤ) < sz := by
        rcases hbad with h | h
        · exact absurd h hz
        · exact h
      unfold _select_questions
      dsimp only
      rw [if_neg hz, if_pos hlen]
      exact ⟨_, rfl⟩
  · intro α sample questions sample_seed l hl
    unfold _select_questions
    dsimp only
    rw [if_pos hl]

/-- Witness for C8 (amended) at concrete inputs. -/
theorem validation_error_before_provider_calls_witness :
    (run_retrieval_benchmark successAdapter () noSample "fake" miniDataset2 5
        "run-bad" false none (some 3) (some 1) false false :
      List AdapterEvent × Except PyExc (Report Unit)) =
      ([.init], .error (.valueError "sample_size=3 exceeds available questions=2")) ∧
    (∃ m, _select_questions noSample ([10, 20] : List ℕ) none (some 3) none =
      .error (.valueError m)) ∧
    _select_questions noSample ([10, 20] : List ℕ) (some (-1)) none none =
      .error (.valueError "limit must be >= 0") := by
  refine ⟨?_, ?_, ?_⟩
  · exact validation_error_before_provider_calls.1 successAdapter () () noSample
      "fake" miniDataset2 5 "run-bad" false none (some 3) (some 1) false false
      (.valueError "sample_size=3 exceeds available questions=2") rfl rfl
  · exact validation_error_before_provider_calls.2.1 noSample [10, 20] none none 3
      (Or.inr (by decide))
  · exact validation_error_before_provider_calls.2.2 noSample [10, 20] none (-1)
      (by decide)

/-- A mapped-and-flattened list is non-empty as soon as one member maps to
a non-empty list. -/
theorem flatten_ne_nil_of_mem {α β : Type} (f : α → List β) {x : α}
    {l : List α} (hx : x ∈ l) (hf : f x ≠ []) : (l.map f).flatten ≠ [] := by
  intro h
  rcases List.exists_mem_of_ne_nil _ hf with ⟨b, hb⟩
  have hmem : b ∈ (l.map f).flatten :=
    List.mem_flatten.mpr ⟨f x, List.mem_map_of_mem f hx, hb⟩
  rw [h] at hmem
  cases hmem

/-- A question object with `relevant_session_ids` missing (or `None`) always
contributes validation errors. -/
theorem validateQuestionErrors_rel_missing (qi : ℕ) (qkv : List (String × JVal))
    (hrel : jGet qkv "relevant_session_ids" = .null) :
    validateQuestionErrors qi (.dict qkv) ≠ [] := by
  intro h
  unfold validateQuestionErrors at h
  dsimp only at h
  rw [hrel] at h
  simp only [jRequireList, List.append_eq_nil] at h
  exact absurd h.2.2.1.1 (List.cons_ne_nil _ _)

/-- Claim C9 (the code contradicts it): `load_retrieval_dataset` validates
the payload before building questions, and `validate_dataset_payload`
requires `relevant_session_ids` to be a present non-empty list — so loading
a payload in which any question omits the field always raises
`SchemaValidationError` (first conjunct, and concretely on `omitRelPayload`
in the second), even though the question-building stage of `dataset.py`
itself would default the field to the first session's id (third conjunct:
the defaulting branch is dead code under `load_retrieval_dataset`). -/
theorem relevant_ids_default_unreachable :
    (∀ (stem : String) (kvs : List (String × JVal)) (qs : List JVal)
       (qkv : List (String × JVal)),
       JVal.dict qkv ∈ qs →
       jGet kvs "questions" = .list qs →
       jGet qkv "relevant_session_ids" = .null →
       ∃ msg, load_retrieval_dataset_payload stem (.dict kvs) =
         .error (.schemaValidationError msg)) ∧
    load_retrieval_dataset_payload "mini" omitRelPayload =
      .error (.schemaValidationError
        ("schema validation failed: " ++
         "dataset.questions[0].relevant_session_ids: must be a list; " ++
         "dataset.questions[0].relevant_session_ids: must be a non-empty list")) ∧
    ((buildQuestion omitRelQuestion).map fun q => q.relevant_session_ids) =
      .ok ["s1"] := by
  refine ⟨?_, rfl, rfl⟩
  intro stem kvs qs qkv hmem hq hrel
  have herr : validateDatasetErrors kvs ≠ [] := by
    intro h
    unfold validateDatasetErrors at h
    rw [hq] at h
    simp only [jRequireList, List.append_eq_nil] at h
    rcases List.getElem?_of_mem hmem with ⟨i, hi⟩
    have henum : ((i, JVal.dict qkv) : ℕ × JVal) ∈ qs.enum :=
      List.mem_enum_iff_getElem?.mpr hi
    exact flatten_ne_nil_of_mem (fun p => validateQuestionErrors p.1 p.2) henum
      (by exact validateQuestionErrors_rel_missing i qkv hrel) h.2.2
  unfold load_retrieval_dataset_payload validate_dataset_payload
  dsimp only
  rw [if_neg herr]
  exact ⟨_, rfl⟩

end OpenclawMemoryBench
